import Mathlib

/-!
Shallow embedding of `mcp-video-gen/main.py`, an MCQ-to-video pipeline.

The pure parts of the program (string normalization, text accumulation,
path construction, control flow of the orchestrator) are translated
directly into Lean functions.  The external library collaborators
(PIL image drawing/saving, `textwrap.fill`, gTTS speech synthesis,
moviepy audio/video encoding, pandas CSV reading, `os.makedirs`) are
modelled by an explicit environment `Env` of oracles that decide, for
each call site, whether the library call succeeds and what it yields.
The filesystem is modelled as the list of file paths that exist;
Python floats (audio durations) are modelled as rationals.
Python exceptions are modelled as `Except String` carrying the
rendered message of the exception, since the orchestrator only ever
formats caught exceptions into strings.
-/

namespace McpVideoGen

/-- Worker for `pySplit`: `acc` holds the characters of the word being
read, in reverse. -/
def pySplitAux : List Char → List Char → List String
  | [], acc => if acc = [] then [] else [⟨acc.reverse⟩]
  | c :: rest, acc =>
    if c.isWhitespace then
      if acc = [] then pySplitAux rest []
      else ⟨acc.reverse⟩ :: pySplitAux rest []
    else pySplitAux rest (c :: acc)

/-- Python `str.split()` with no argument: the maximal runs of
non-whitespace characters, so empty pieces never occur. -/
def pySplit (s : String) : List String := pySplitAux s.data []

/-- Python `sep.join(parts)`. -/
def pyJoin (sep : String) : List String → String
  | [] => ""
  | [x] => x
  | x :: y :: t => x ++ sep ++ pyJoin sep (y :: t)

/-- Python space-join of `text.split()`, the whitespace cleanup applied to
every cell in `create_image_for_mcq`. -/
def normalizeWs (s : String) : String :=
  pyJoin " " (pySplit s)

/-- Drop leading whitespace characters. -/
def trimLeadWs (l : List Char) : List Char := l.dropWhile Char.isWhitespace

/-- Drop trailing whitespace characters. -/
def trimTrailWs (l : List Char) : List Char :=
  (l.reverse.dropWhile Char.isWhitespace).reverse

/-- Python `str.strip()`: remove leading and trailing whitespace. -/
def pyStrip (s : String) : String := ⟨trimLeadWs (trimTrailWs s.data)⟩

/-- The decimal digit characters, used to render the 1-based item number
into the intermediate file names (Python renders `item_num` in an f-string
as its decimal numeral). -/
def decDigitChar (d : Nat) : Char :=
  match d with
  | 0 => '0' | 1 => '1' | 2 => '2' | 3 => '3' | 4 => '4'
  | 5 => '5' | 6 => '6' | 7 => '7' | 8 => '8' | _ => '9'

/-- Fuelled decimal rendering of a natural number (most significant digit
first).  The fuel argument only serves to make the recursion structural;
`decStr` always supplies enough fuel. -/
def decStrAux : Nat → Nat → List Char
  | 0, _ => []
  | fuel+1, n =>
    if n < 10 then [decDigitChar n]
    else decStrAux fuel (n / 10) ++ [decDigitChar (n % 10)]

/-- Decimal numeral of a natural number, the embedding of Python
`f-string` interpolation of an `int`. -/
def decStr (n : Nat) : String := ⟨decStrAux (n + 1) n⟩

/-- Python `os.path.splitext(p)[0]` (posix flavour): cut off the extension at the
last dot of the last path component, unless every character of the last
component before that dot is itself a dot. -/
def pySplitextStem (p : String) : String :=
  let l := p.data
  let lastDot := (l.reverse.findIdx? (fun c => c = '.')).map (fun k => l.length - 1 - k)
  let baseStart :=
    match (l.reverse.findIdx? (fun c => c = '/')).map (fun k => l.length - 1 - k) with
    | none => 0
    | some si => si + 1
  match lastDot with
  | none => p
  | some di =>
    if ((l.drop baseStart).take (di - baseStart)).all (fun c => c = '.') then p
    else ⟨l.take di⟩

/-- The filesystem, modelled as the list of paths of existing files. -/
abbrev FS := List String

/-- A file is created (Python writes overwrite silently, so membership is
all that matters). -/
def FS.add (fs : FS) (p : String) : FS := p :: fs

/-- Embedding of `os.remove` (guarded by `os.path.exists` in the source, which is a
no-op difference on a set-like filesystem). -/
def FS.rm (fs : FS) (p : String) : FS := fs.filter (fun q => q ≠ p)

/-- Embedding of `os.path.exists`. -/
def FS.has (fs : FS) (p : String) : Bool := fs.contains p

/-- Outcome of `pd.read_csv` + `dropna(how=all)` on the input file.
Because the source reads with `keep_default_na=False` and `dtype=str`,
every cell is a string and `dropna(how=all)` keeps every parsed row, so
the oracle directly yields the `data_list` the loop iterates over.
`emptyData` is `pd.errors.EmptyDataError`; `err` is any other exception. -/
inductive CsvRead where
  | ok (rows : List (List String))
  | emptyData
  | err (msg : String)
deriving DecidableEq

/-- Oracles for every external library call the program makes, together
with the initial filesystem and working directory. -/
structure Env where
  /-- current working directory, for `os.path.abspath` -/
  cwd : String
  /-- files existing before the invocation starts -/
  fs0 : FS
  /-- Result of `textwrap.fill text wrap_width` followed by `split (newline)`:
  the lines the renderer draws for one (already normalized) cell -/
  wrapLines : Nat → String → List String
  /-- PIL failure at `image.save` (and any other drawing failure of the
  row, all of which the source wraps identically), keyed by image path:
  `none` means success, `some e` the rendered message of the exception -/
  imageSaveErr : String → Option String
  /-- gTTS failure, keyed by (text, audio path, language) -/
  ttsErr : String → String → String → Option String
  /-- Opening `AudioFileClip` on an audio path: an exception message, or the
  clip duration (`none` models Python `None`, an unknown duration) -/
  audioOpen : String → Except String (Option ℚ)
  /-- moviepy failure at `video_clip.write_videofile`, keyed by clip path -/
  videoWriteErr : String → Option String
  /-- moviepy failure in `concatenate_videoclips` / final write -/
  concatErr : Option String
  /-- Failure of `os.makedirs` -/
  mkdirErr : Option String
  /-- the parse of the input CSV -/
  readCsv : CsvRead

/-- RGB colour triple. -/
abbrev RGB := Nat × Nat × Nat

def DEFAULT_IMAGE_WIDTH : Nat := 1920
def DEFAULT_IMAGE_HEIGHT : Nat := 1080
def DEFAULT_BACKGROUND_COLOR : RGB := (0, 127, 215)
def DEFAULT_FONT_COLOR : RGB := (255, 255, 255)
def DEFAULT_FONT_SIZE : Nat := 70
def DEFAULT_LINE_SPACING : Nat := 10
def DEFAULT_MARGIN : Nat := 80
def DEFAULT_TEXT_WRAP_WIDTH : Nat := 45
def DEFAULT_FPS : Nat := 24
def DEFAULT_LANGUAGE : String := "en"
def DEFAULT_FONT_PATH : String := "HindVadodara-Light.ttf"

/-- The lines the renderer draws for one cell: the cell is whitespace
normalized, an empty result is skipped (`continue` in the source), a
non-empty one is wrapped at `wrap_width`.  (Non-string cells are first
passed through `str`, which is the identity here since the table is read
with `dtype=str`.) -/
def cellLines (env : Env) (wrap_width : Nat) (cell : String) : List String :=
  let text := normalizeWs cell
  if text = "" then [] else env.wrapLines wrap_width text

/-- The `text_content` accumulator of `create_image_for_mcq`: every drawn
line is appended followed by one space. -/
def slideTextRaw (env : Env) (wrap_width : Nat) (data_row : List String) : String :=
  data_row.foldl (fun acc cell =>
    (cellLines env wrap_width cell).foldl (fun a line => a ++ line ++ " ") acc) ""

/-- Embedding of `create_image_for_mcq`: raises `FileNotFoundError` (unwrapped) when the
font path does not exist, wraps every other failure as
`RuntimeError (Error creating image ...)`, otherwise writes the bitmap at
`image_path` and returns `text_content.strip()` for TTS.  The drawing
geometry parameters do not influence the returned text or the filesystem,
so they are carried but unused. -/
def create_image_for_mcq (env : Env) (data_row : List String) (image_path : String)
    (width height : Nat) (bg_color font_color : RGB) (font_size : Nat)
    (font_path : String) (line_spacing margin wrap_width : Nat) (fs : FS) :
    Except String (FS × String) :=
  if FS.has fs font_path = false then
    .error ("Font file not found at: " ++ font_path)
  else
    match env.imageSaveErr image_path with
    | some e => .error ("Error creating image " ++ image_path ++ ": " ++ e)
    | none => .ok (FS.add fs image_path, pyStrip (slideTextRaw env wrap_width data_row))

/-- Embedding of `create_audio_for_mcq`: gTTS synthesis to `audio_path`, any failure
wrapped as `RuntimeError (Error creating audio ...)`. -/
def create_audio_for_mcq (env : Env) (text : String) (audio_path : String) (lang : String)
    (fs : FS) : Except String FS :=
  match env.ttsErr text audio_path lang with
  | some e => .error ("Error creating audio " ++ audio_path ++ " with gTTS: " ++ e)
  | none => .ok (FS.add fs audio_path)

/-- Embedding of `create_video_clip`: checks both inputs exist, opens the audio to read
its duration, substitutes 1.0 when the duration is `None` or non-positive,
writes the clip and returns the effective duration.  Every failure
(including the two `FileNotFoundError`s, which the blanket `except` also
catches) is wrapped as `RuntimeError (Error creating video clip ...)`. -/
def create_video_clip (env : Env) (image_path audio_path video_path : String)
    (fps : Nat) (fs : FS) : Except String (FS × ℚ) :=
  if FS.has fs image_path = false then
    .error ("Error creating video clip " ++ video_path ++ ": Image file not found: " ++ image_path)
  else if FS.has fs audio_path = false then
    .error ("Error creating video clip " ++ video_path ++ ": Audio file not found: " ++ audio_path)
  else
    match env.audioOpen audio_path with
    | .error e => .error ("Error creating video clip " ++ video_path ++ ": " ++ e)
    | .ok durOpt =>
      let audio_duration : ℚ :=
        match durOpt with
        | none => 1
        | some d => if d ≤ 0 then 1 else d
      match env.videoWriteErr video_path with
      | some e => .error ("Error creating video clip " ++ video_path ++ ": " ++ e)
      | none => .ok (FS.add fs video_path, audio_duration)

/-- Embedding of `concatenate_videos`: an empty input list raises `ValueError` before
the `try` block (so unwrapped); a missing clip or any encoding failure is
wrapped as `RuntimeError (Error concatenating videos ...)`; on success the
final file is written. -/
def concatenate_videos (env : Env) (video_paths : List String) (final_video_path : String)
    (fs : FS) : Except String FS :=
  if video_paths = [] then
    .error "No video paths provided for concatenation."
  else
    match video_paths.find? (fun p => ! FS.has fs p) with
    | some p =>
      .error ("Error concatenating videos to " ++ final_video_path ++
        ": Video clip not found for concatenation: " ++ p)
    | none =>
      match env.concatErr with
      | some e => .error ("Error concatenating videos to " ++ final_video_path ++ ": " ++ e)
      | none => .ok (FS.add fs final_video_path)

/-- `os.path.join(output_dir, mcq_img_{item_num}.png)`. -/
def image_file (output_dir : String) (item_num : Nat) : String :=
  output_dir ++ "/mcq_img_" ++ decStr item_num ++ ".png"

/-- `os.path.join(output_dir, mcq_audio_{item_num}.mp3)`. -/
def audio_file (output_dir : String) (item_num : Nat) : String :=
  output_dir ++ "/mcq_audio_" ++ decStr item_num ++ ".mp3"

/-- `os.path.join(output_dir, mcq_video_{item_num}.mp4)`. -/
def video_file (output_dir : String) (item_num : Nat) : String :=
  output_dir ++ "/mcq_video_" ++ decStr item_num ++ ".mp4"

/-- The three intermediate artifact paths of one row. -/
def rowFiles (output_dir : String) (item_num : Nat) : List String :=
  [image_file output_dir item_num, audio_file output_dir item_num,
   video_file output_dir item_num]

/-- `os.path.abspath(./{output_base_name}_output)`. -/
def outputDir (cwd output_filename : String) : String :=
  cwd ++ "/" ++ pySplitextStem output_filename ++ "_output"

/-- `os.path.join(output_dir, output_filename)`. -/
def finalVideoPath (cwd output_filename : String) : String :=
  outputDir cwd output_filename ++ "/" ++ output_filename

/-- How one row of the loop ended: skipped because the rendered text was
empty, caught exception (with its rendered message), or a produced clip
with its effective duration. -/
inductive RowOutcome where
  | skippedEmpty
  | failed (msg : String)
  | ok (duration : ℚ)
deriving DecidableEq

/-- Trace entry for one row: the 1-based item number, the text handed to
TTS (`none` when the render stage already failed), and the outcome. -/
structure RowTrace where
  item_num : Nat
  text : Option String
  outcome : RowOutcome
deriving DecidableEq

/-- State threaded through the per-row loop of `create_mcq_video`. -/
structure LoopState where
  fs : FS
  individual_video_paths : List String
  total_duration : ℚ
  trace : List RowTrace
deriving DecidableEq

/-- The body of `for idx, data_row in enumerate(data_list)`: stages
a (image+text), b (audio), c (clip), with the blanket `except` that
removes the partial artifacts of the row and moves on. -/
def processRow (env : Env) (output_dir language font_path : String)
    (font_size img_width img_height : Nat) (bg_color_rgb font_color_rgb : RGB)
    (st : LoopState) (idx : Nat) (data_row : List String) : LoopState :=
  match create_image_for_mcq env data_row (image_file output_dir (idx + 1))
      img_width img_height bg_color_rgb font_color_rgb font_size font_path
      DEFAULT_LINE_SPACING DEFAULT_MARGIN DEFAULT_TEXT_WRAP_WIDTH st.fs with
  | .error e =>
    { st with fs := FS.rm (FS.rm (FS.rm st.fs (image_file output_dir (idx + 1)))
                      (audio_file output_dir (idx + 1))) (video_file output_dir (idx + 1)),
              trace := st.trace ++ [⟨idx + 1, none, .failed e⟩] }
  | .ok (fs1, text_for_speech) =>
    if text_for_speech = "" then
      { st with fs := fs1,
                trace := st.trace ++ [⟨idx + 1, some "", .skippedEmpty⟩] }
    else
      match create_audio_for_mcq env text_for_speech (audio_file output_dir (idx + 1))
          language fs1 with
      | .error e =>
        { st with fs := FS.rm (FS.rm (FS.rm fs1 (image_file output_dir (idx + 1)))
                        (audio_file output_dir (idx + 1))) (video_file output_dir (idx + 1)),
                  trace := st.trace ++ [⟨idx + 1, some text_for_speech, .failed e⟩] }
      | .ok fs2 =>
        match create_video_clip env (image_file output_dir (idx + 1))
            (audio_file output_dir (idx + 1)) (video_file output_dir (idx + 1))
            DEFAULT_FPS fs2 with
        | .error e =>
          { st with fs := FS.rm (FS.rm (FS.rm fs2 (image_file output_dir (idx + 1)))
                          (audio_file output_dir (idx + 1))) (video_file output_dir (idx + 1)),
                    trace := st.trace ++ [⟨idx + 1, some text_for_speech, .failed e⟩] }
        | .ok (fs3, clip_duration) =>
          { fs := fs3,
            individual_video_paths := st.individual_video_paths ++
              [video_file output_dir (idx + 1)],
            total_duration := st.total_duration + clip_duration,
            trace := st.trace ++ [⟨idx + 1, some text_for_speech, .ok clip_duration⟩] }

/-- The whole `enumerate` loop, carrying the running index. -/
def processRows (env : Env) (output_dir language font_path : String)
    (font_size img_width img_height : Nat) (bg_color_rgb font_color_rgb : RGB)
    (st : LoopState) (idx : Nat) : List (List String) → LoopState
  | [] => st
  | data_row :: rest =>
    processRows env output_dir language font_path font_size img_width img_height
      bg_color_rgb font_color_rgb
      (processRow env output_dir language font_path font_size img_width img_height
        bg_color_rgb font_color_rgb st idx data_row)
      (idx + 1) rest

/-- Observable result of one invocation of the tool: the returned string,
the final filesystem, the argument lists of every call into the
concatenator, the per-row trace, and the successful clip list. -/
structure RunResult where
  ret : String
  fs : FS
  concatCalls : List (List String × String)
  trace : List RowTrace
  successPaths : List String
deriving DecidableEq

def msgCsvMissing (csv_file_path : String) : String :=
  "Error: Input CSV file not found at \x27" ++ csv_file_path ++ "\x27"

def msgFontMissing (font_path : String) : String :=
  "Error: Font file not found at \x27" ++ font_path ++ "\x27. Please provide a valid path."

def msgCsvNoData (csv_file_path : String) : String :=
  "Error: CSV file \x27" ++ csv_file_path ++ "\x27 seems to be empty or contains no valid data rows."

def msgCsvEmpty (csv_file_path : String) : String :=
  "Error: CSV file \x27" ++ csv_file_path ++ "\x27 is empty."

def msgCsvUnreadable (csv_file_path : String) (e : String) : String :=
  "Error reading CSV file \x27" ++ csv_file_path ++ "\x27: " ++ e

def msgNoClips : String :=
  "Error: No individual video clips were successfully generated. Final video cannot be created."

def msgConcatFailed (e : String) : String :=
  "Error during final video concatenation: " ++ e

def msgUnexpected (e : String) : String :=
  "Error: An unexpected error occurred during video generation: " ++ e

/-- The `create_mcq_video` tool.  In the source every parameter after the
CSV path has a default (`Gyan_Dariyo_final_video.mp4`, `DEFAULT_LANGUAGE`,
`DEFAULT_FONT_PATH`, `DEFAULT_FONT_SIZE`, `DEFAULT_IMAGE_WIDTH`,
`DEFAULT_IMAGE_HEIGHT`, `DEFAULT_BACKGROUND_COLOR`,
`DEFAULT_FONT_COLOR`); here all are passed explicitly.  The outer
`try/except` that converts any unexpected exception into a string return
is reached in the model by an `os.makedirs` failure (every other
fallible call already has its own handler). -/
def create_mcq_video (env : Env) (csv_file_path output_filename language font_path : String)
    (font_size img_width img_height : Nat) (bg_color_rgb font_color_rgb : RGB) : RunResult :=
  if FS.has env.fs0 csv_file_path = false then
    ⟨msgCsvMissing csv_file_path, env.fs0, [], [], []⟩
  else if FS.has env.fs0 font_path = false then
    ⟨msgFontMissing font_path, env.fs0, [], [], []⟩
  else
    let output_dir := outputDir env.cwd output_filename
    match env.mkdirErr with
    | some e => ⟨msgUnexpected e, env.fs0, [], [], []⟩
    | none =>
      let final_video_full_path := output_dir ++ "/" ++ output_filename
      match env.readCsv with
      | .emptyData => ⟨msgCsvEmpty csv_file_path, env.fs0, [], [], []⟩
      | .err e => ⟨msgCsvUnreadable csv_file_path e, env.fs0, [], [], []⟩
      | .ok data_list =>
        if data_list = [] then
          ⟨msgCsvNoData csv_file_path, env.fs0, [], [], []⟩
        else
          let final := processRows env output_dir language font_path font_size
            img_width img_height bg_color_rgb font_color_rgb
            ⟨env.fs0, [], 0, []⟩ 0 data_list
          if final.individual_video_paths = [] then
            ⟨msgNoClips, final.fs, [], final.trace, []⟩
          else
            match concatenate_videos env final.individual_video_paths
                final_video_full_path final.fs with
            | .error e =>
              ⟨msgConcatFailed e, final.fs,
                [(final.individual_video_paths, final_video_full_path)],
                final.trace, final.individual_video_paths⟩
            | .ok fs2 =>
              ⟨final_video_full_path, fs2,
                [(final.individual_video_paths, final_video_full_path)],
                final.trace, final.individual_video_paths⟩

/-! ### Decimal rendering: round trip and injectivity -/

/-- Numeric value of a decimal digit character (partial inverse of
`decDigitChar`). -/
def charVal (c : Char) : Nat :=
  match c with
  | '0' => 0 | '1' => 1 | '2' => 2 | '3' => 3 | '4' => 4
  | '5' => 5 | '6' => 6 | '7' => 7 | '8' => 8 | _ => 9

/-- Value of a big-endian digit string. -/
def decVal (l : List Char) : Nat := l.foldl (fun acc c => acc * 10 + charVal c) 0

theorem decVal_append_one (l : List Char) (c : Char) :
    decVal (l ++ [c]) = decVal l * 10 + charVal c := by
  simp [decVal, List.foldl_append]

theorem charVal_decDigitChar (n : Nat) (h : n < 10) : charVal (decDigitChar n) = n := by
  interval_cases n <;> rfl

theorem decVal_decStrAux : ∀ fuel n, n < fuel → decVal (decStrAux fuel n) = n := by
  intro fuel
  induction fuel with
  | zero => intro n h; omega
  | succ f ih =>
    intro n h
    unfold decStrAux
    by_cases h10 : n < 10
    · simp [h10, decVal, charVal_decDigitChar n h10]
    · simp only [h10, if_false]
      rw [decVal_append_one, ih (n / 10) (by omega), charVal_decDigitChar _ (by omega)]
      omega

theorem decStr_injective : Function.Injective decStr := by
  intro m n h
  have hm : decVal (decStr m).data = m := decVal_decStrAux (m + 1) m (by omega)
  have hn : decVal (decStr n).data = n := decVal_decStrAux (n + 1) n (by omega)
  rw [← hm, ← hn, h]

/-! ### Distinctness of the artifact paths -/

theorem image_file_inj {d : String} {i j : Nat} (h : image_file d i = image_file d j) :
    i = j := by
  have h2 := congrArg String.data h
  simp only [image_file, String.data_append] at h2
  have h3 := (List.append_inj' h2 rfl).1
  have h4 := List.append_cancel_left h3
  exact decStr_injective (String.ext h4)

theorem audio_file_inj {d : String} {i j : Nat} (h : audio_file d i = audio_file d j) :
    i = j := by
  have h2 := congrArg String.data h
  simp only [audio_file, String.data_append] at h2
  have h3 := (List.append_inj' h2 rfl).1
  have h4 := List.append_cancel_left h3
  exact decStr_injective (String.ext h4)

theorem video_file_inj {d : String} {i j : Nat} (h : video_file d i = video_file d j) :
    i = j := by
  have h2 := congrArg String.data h
  simp only [video_file, String.data_append] at h2
  have h3 := (List.append_inj' h2 rfl).1
  have h4 := List.append_cancel_left h3
  exact decStr_injective (String.ext h4)

theorem image_file_ne_audio_file (d : String) (i j : Nat) :
    image_file d i ≠ audio_file d j := by
  intro h
  have h2 := congrArg String.data h
  simp only [image_file, audio_file, String.data_append] at h2
  have h3 := (List.append_inj' h2 rfl).2
  exact absurd h3 (by decide)

theorem image_file_ne_video_file (d : String) (i j : Nat) :
    image_file d i ≠ video_file d j := by
  intro h
  have h2 := congrArg String.data h
  simp only [image_file, video_file, String.data_append] at h2
  have h3 := (List.append_inj' h2 rfl).2
  exact absurd h3 (by decide)

theorem audio_file_ne_video_file (d : String) (i j : Nat) :
    audio_file d i ≠ video_file d j := by
  intro h
  have h2 := congrArg String.data h
  simp only [audio_file, video_file, String.data_append] at h2
  have h3 := (List.append_inj' h2 rfl).2
  exact absurd h3 (by decide)

/-- Artifact paths of distinct rows are disjoint, and within one row the
three artifact paths are pairwise distinct. -/
theorem rowFiles_eq_of_mem {d : String} {a b : Nat} {p : String}
    (ha : p ∈ rowFiles d a) (hb : p ∈ rowFiles d b) : a = b := by
  simp only [rowFiles, List.mem_cons, List.not_mem_nil, or_false] at ha hb
  rcases ha with ha | ha | ha <;> rcases hb with hb | hb | hb <;>
    rw [ha] at hb
  · exact image_file_inj hb
  · exact absurd hb (image_file_ne_audio_file d a b)
  · exact absurd hb (image_file_ne_video_file d a b)
  · exact absurd hb.symm (image_file_ne_audio_file d b a)
  · exact audio_file_inj hb
  · exact absurd hb (audio_file_ne_video_file d a b)
  · exact absurd hb.symm (image_file_ne_video_file d b a)
  · exact absurd hb.symm (audio_file_ne_video_file d b a)
  · exact video_file_inj hb

/-! ### Filesystem membership -/

theorem FS.mem_add {fs : FS} {p q : String} : q ∈ FS.add fs p ↔ q = p ∨ q ∈ fs := by
  simp [FS.add]

theorem FS.mem_rm {fs : FS} {p q : String} : q ∈ FS.rm fs p ↔ q ∈ fs ∧ q ≠ p := by
  simp [FS.rm]

theorem FS.has_iff {fs : FS} {p : String} : FS.has fs p = true ↔ p ∈ fs := by
  simp [FS.has]

theorem FS.has_false_iff {fs : FS} {p : String} : FS.has fs p = false ↔ p ∉ fs := by
  simp [FS.has]

/-! ### Per-row loop body: frame property and pure characterization -/

theorem create_image_font_missing {env : Env} {data_row : List String}
    {image_path : String} {width height : Nat} {bg_color font_color : RGB}
    {font_size : Nat} {font_path : String} {line_spacing margin wrap_width : Nat}
    {fs : FS} (hfont : FS.has fs font_path = false) :
    create_image_for_mcq env data_row image_path width height bg_color font_color
        font_size font_path line_spacing margin wrap_width fs =
      .error ("Font file not found at: " ++ font_path) := by
  unfold create_image_for_mcq; rw [if_pos hfont]

theorem create_image_save_err {env : Env} {data_row : List String}
    {image_path : String} {width height : Nat} {bg_color font_color : RGB}
    {font_size : Nat} {font_path : String} {line_spacing margin wrap_width : Nat}
    {fs : FS} {e : String} (hfont : FS.has fs font_path = true)
    (hsave : env.imageSaveErr image_path = some e) :
    create_image_for_mcq env data_row image_path width height bg_color font_color
        font_size font_path line_spacing margin wrap_width fs =
      .error ("Error creating image " ++ image_path ++ ": " ++ e) := by
  unfold create_image_for_mcq; simp [hfont, hsave]

theorem create_image_ok {env : Env} {data_row : List String}
    {image_path : String} {width height : Nat} {bg_color font_color : RGB}
    {font_size : Nat} {font_path : String} {line_spacing margin wrap_width : Nat}
    {fs : FS} (hfont : FS.has fs font_path = true)
    (hsave : env.imageSaveErr image_path = none) :
    create_image_for_mcq env data_row image_path width height bg_color font_color
        font_size font_path line_spacing margin wrap_width fs =
      .ok (FS.add fs image_path, pyStrip (slideTextRaw env wrap_width data_row)) := by
  unfold create_image_for_mcq; simp [hfont, hsave]

theorem create_audio_err {env : Env} {text audio_path lang : String} {fs : FS} {e : String}
    (htts : env.ttsErr text audio_path lang = some e) :
    create_audio_for_mcq env text audio_path lang fs =
      .error ("Error creating audio " ++ audio_path ++ " with gTTS: " ++ e) := by
  unfold create_audio_for_mcq; rw [htts]

theorem create_audio_ok {env : Env} {text audio_path lang : String} {fs : FS}
    (htts : env.ttsErr text audio_path lang = none) :
    create_audio_for_mcq env text audio_path lang fs = .ok (FS.add fs audio_path) := by
  unfold create_audio_for_mcq; rw [htts]

theorem create_video_clip_open_err {env : Env} {image_path audio_path video_path : String}
    {fps : Nat} {fs : FS} {e : String}
    (himg : FS.has fs image_path = true) (haud : FS.has fs audio_path = true)
    (hopen : env.audioOpen audio_path = .error e) :
    create_video_clip env image_path audio_path video_path fps fs =
      .error ("Error creating video clip " ++ video_path ++ ": " ++ e) := by
  unfold create_video_clip; simp [himg, haud, hopen]

theorem create_video_clip_write_err {env : Env} {image_path audio_path video_path : String}
    {fps : Nat} {fs : FS} {durOpt : Option ℚ} {e : String}
    (himg : FS.has fs image_path = true) (haud : FS.has fs audio_path = true)
    (hopen : env.audioOpen audio_path = .ok durOpt)
    (hwrite : env.videoWriteErr video_path = some e) :
    create_video_clip env image_path audio_path video_path fps fs =
      .error ("Error creating video clip " ++ video_path ++ ": " ++ e) := by
  unfold create_video_clip; simp [himg, haud, hopen, hwrite]

theorem create_video_clip_ok {env : Env} {image_path audio_path video_path : String}
    {fps : Nat} {fs : FS} {durOpt : Option ℚ}
    (himg : FS.has fs image_path = true) (haud : FS.has fs audio_path = true)
    (hopen : env.audioOpen audio_path = .ok durOpt)
    (hwrite : env.videoWriteErr video_path = none) :
    create_video_clip env image_path audio_path video_path fps fs =
      .ok (FS.add fs video_path,
        match durOpt with
        | none => 1
        | some d => if d ≤ 0 then 1 else d) := by
  unfold create_video_clip
  simp only [himg, haud, hopen, hwrite]
  cases durOpt <;> simp

theorem has_add_self {fs : FS} {p : String} : FS.has (FS.add fs p) p = true := by
  rw [FS.has_iff]; simp [FS.mem_add]

theorem has_add_of_has {fs : FS} {p q : String} (h : FS.has fs p = true) :
    FS.has (FS.add fs q) p = true := by
  rw [FS.has_iff] at h ⊢; simp [FS.mem_add, h]

theorem processRow_fs_frame (env : Env) (output_dir language font_path : String)
    (font_size img_width img_height : Nat) (bg_color_rgb font_color_rgb : RGB)
    (st : LoopState) (idx : Nat) (data_row : List String) (p : String)
    (hp : p ∉ rowFiles output_dir (idx + 1)) :
    p ∈ (processRow env output_dir language font_path font_size img_width img_height
        bg_color_rgb font_color_rgb st idx data_row).fs ↔ p ∈ st.fs := by
  simp only [rowFiles, List.mem_cons, List.not_mem_nil, or_false, not_or] at hp
  obtain ⟨h1, h2, h3⟩ := hp
  unfold processRow
  rcases hfont : FS.has st.fs font_path with _ | _
  · rw [create_image_font_missing hfont]
    simp [FS.mem_rm, h1, h2, h3]
  · rcases hsave : env.imageSaveErr (image_file output_dir (idx + 1)) with _ | e
    · rw [create_image_ok hfont hsave]
      dsimp only
      by_cases htext : pyStrip (slideTextRaw env DEFAULT_TEXT_WRAP_WIDTH data_row) = ""
      · simp [htext, FS.mem_add, h1]
      · simp only [htext, if_false]
        rcases htts : env.ttsErr (pyStrip (slideTextRaw env DEFAULT_TEXT_WRAP_WIDTH data_row))
            (audio_file output_dir (idx + 1)) language with _ | e
        · rw [create_audio_ok htts]
          dsimp only
          rcases hopen : env.audioOpen (audio_file output_dir (idx + 1)) with e | durOpt
          · rw [create_video_clip_open_err (has_add_of_has has_add_self) has_add_self hopen]
            simp [FS.mem_rm, FS.mem_add, h1, h2, h3]
          · rcases hwrite : env.videoWriteErr (video_file output_dir (idx + 1)) with _ | e
            · rw [create_video_clip_ok (has_add_of_has has_add_self) has_add_self hopen hwrite]
              simp [FS.mem_add, h1, h2, h3]
            · rw [create_video_clip_write_err (has_add_of_has has_add_self) has_add_self hopen hwrite]
              simp [FS.mem_rm, FS.mem_add, h1, h2, h3]
        · rw [create_audio_err htts]
          simp [FS.mem_rm, FS.mem_add, h1, h2, h3]
    · rw [create_image_save_err hfont hsave]
      simp [FS.mem_rm, h1, h2, h3]

/-- The outcome of one row as a pure function of the environment and the
row (valid whenever the font file is present, which the pre-flight check
plus the frame property guarantee throughout the loop). -/
def rowTracePure (env : Env) (output_dir language : String) (idx : Nat)
    (data_row : List String) : RowTrace :=
  match env.imageSaveErr (image_file output_dir (idx + 1)) with
  | some e =>
    ⟨idx + 1, none,
      .failed ("Error creating image " ++ image_file output_dir (idx + 1) ++ ": " ++ e)⟩
  | none =>
    if pyStrip (slideTextRaw env DEFAULT_TEXT_WRAP_WIDTH data_row) = "" then
      ⟨idx + 1, some "", .skippedEmpty⟩
    else
      match env.ttsErr (pyStrip (slideTextRaw env DEFAULT_TEXT_WRAP_WIDTH data_row))
          (audio_file output_dir (idx + 1)) language with
      | some e =>
        ⟨idx + 1, some (pyStrip (slideTextRaw env DEFAULT_TEXT_WRAP_WIDTH data_row)),
          .failed ("Error creating audio " ++ audio_file output_dir (idx + 1) ++
            " with gTTS: " ++ e)⟩
      | none =>
        match env.audioOpen (audio_file output_dir (idx + 1)) with
        | .error e =>
          ⟨idx + 1, some (pyStrip (slideTextRaw env DEFAULT_TEXT_WRAP_WIDTH data_row)),
            .failed ("Error creating video clip " ++ video_file output_dir (idx + 1) ++
              ": " ++ e)⟩
        | .ok durOpt =>
          match env.videoWriteErr (video_file output_dir (idx + 1)) with
          | some e =>
            ⟨idx + 1, some (pyStrip (slideTextRaw env DEFAULT_TEXT_WRAP_WIDTH data_row)),
              .failed ("Error creating video clip " ++ video_file output_dir (idx + 1) ++
                ": " ++ e)⟩
          | none =>
            ⟨idx + 1, some (pyStrip (slideTextRaw env DEFAULT_TEXT_WRAP_WIDTH data_row)),
              .ok (match durOpt with
                   | none => 1
                   | some d => if d ≤ 0 then 1 else d)⟩

theorem rowTracePure_item_num (env : Env) (output_dir language : String) (idx : Nat)
    (data_row : List String) :
    (rowTracePure env output_dir language idx data_row).item_num = idx + 1 := by
  unfold rowTracePure
  repeat' split
  all_goals rfl

theorem processRow_spec (env : Env) (output_dir language font_path : String)
    (font_size img_width img_height : Nat) (bg_color_rgb font_color_rgb : RGB)
    (st : LoopState) (idx : Nat) (data_row : List String)
    (hf : font_path ∈ st.fs) :
    (processRow env output_dir language font_path font_size img_width img_height
        bg_color_rgb font_color_rgb st idx data_row).trace =
      st.trace ++ [rowTracePure env output_dir language idx data_row] ∧
    (processRow env output_dir language font_path font_size img_width img_height
        bg_color_rgb font_color_rgb st idx data_row).individual_video_paths =
      st.individual_video_paths ++
        (match (rowTracePure env output_dir language idx data_row).outcome with
          | .ok _ => [video_file output_dir (idx + 1)]
          | _ => []) ∧
    ((∃ m, (rowTracePure env output_dir language idx data_row).outcome = .failed m) →
      (∀ q ∈ rowFiles output_dir (idx + 1),
        q ∉ (processRow env output_dir language font_path font_size img_width img_height
          bg_color_rgb font_color_rgb st idx data_row).fs)) ∧
    ((rowTracePure env output_dir language idx data_row).outcome = .skippedEmpty →
      (processRow env output_dir language font_path font_size img_width img_height
          bg_color_rgb font_color_rgb st idx data_row).fs =
        FS.add st.fs (image_file output_dir (idx + 1))) ∧
    ((∃ dq, (rowTracePure env output_dir language idx data_row).outcome = .ok dq) →
      (processRow env output_dir language font_path font_size img_width img_height
          bg_color_rgb font_color_rgb st idx data_row).fs =
        FS.add (FS.add (FS.add st.fs (image_file output_dir (idx + 1)))
          (audio_file output_dir (idx + 1))) (video_file output_dir (idx + 1))) := by
  have hfont : FS.has st.fs font_path = true := FS.has_iff.mpr hf
  unfold processRow
  unfold rowTracePure
  rcases hsave : env.imageSaveErr (image_file output_dir (idx + 1)) with _ | e
  · rw [create_image_ok hfont hsave]
    dsimp only
    by_cases htext : pyStrip (slideTextRaw env DEFAULT_TEXT_WRAP_WIDTH data_row) = ""
    · simp [htext]
    · simp only [htext, if_false]
      rcases htts : env.ttsErr (pyStrip (slideTextRaw env DEFAULT_TEXT_WRAP_WIDTH data_row))
          (audio_file output_dir (idx + 1)) language with _ | e
      · rw [create_audio_ok htts]
        dsimp only
        rcases hopen : env.audioOpen (audio_file output_dir (idx + 1)) with e | durOpt
        · rw [create_video_clip_open_err (has_add_of_has has_add_self) has_add_self hopen]
          simp [FS.mem_rm, rowFiles]
        · rcases hwrite : env.videoWriteErr (video_file output_dir (idx + 1)) with _ | e
          · rw [create_video_clip_ok (has_add_of_has has_add_self) has_add_self hopen hwrite]
            cases durOpt <;> simp
          · rw [create_video_clip_write_err (has_add_of_has has_add_self) has_add_self hopen hwrite]
            simp [FS.mem_rm, rowFiles]
      · rw [create_audio_err htts]
        simp [FS.mem_rm, rowFiles]
  · rw [create_image_save_err hfont hsave]
    simp [FS.mem_rm, rowFiles]

/-! ### The whole loop: trace, clip list and filesystem characterization -/

/-- The traces of all rows from running index `idx`, as pure functions of
the environment. -/
def pureTraces (env : Env) (output_dir language : String) :
    Nat → List (List String) → List RowTrace
  | _, [] => []
  | idx, data_row :: rest =>
    rowTracePure env output_dir language idx data_row ::
      pureTraces env output_dir language (idx + 1) rest

/-- The clip paths of the successful rows, in row order. -/
def clipsOf (output_dir : String) (ts : List RowTrace) : List String :=
  ts.filterMap (fun t =>
    match t.outcome with
    | .ok _ => some (video_file output_dir t.item_num)
    | _ => none)

theorem clipsOf_cons (output_dir : String) (t : RowTrace) (ts : List RowTrace) :
    clipsOf output_dir (t :: ts) =
      (match t.outcome with
        | .ok _ => [video_file output_dir t.item_num]
        | _ => []) ++ clipsOf output_dir ts := by
  unfold clipsOf
  cases h : t.outcome <;> simp [List.filterMap_cons, h]

theorem pureTraces_length (env : Env) (output_dir language : String) :
    ∀ (idx : Nat) (rows : List (List String)),
      (pureTraces env output_dir language idx rows).length = rows.length := by
  intro idx rows
  induction rows generalizing idx with
  | nil => rfl
  | cons r rest ih => simp [pureTraces, ih]

theorem pureTraces_getElem (env : Env) (output_dir language : String) :
    ∀ (idx : Nat) (rows : List (List String)) (n : Nat) (hn : n < rows.length),
      (pureTraces env output_dir language idx rows)[n]? =
        some (rowTracePure env output_dir language (idx + n) (rows.get ⟨n, hn⟩)) := by
  intro idx rows
  induction rows generalizing idx with
  | nil => intro n hn; simp at hn
  | cons r rest ih =>
    intro n hn
    cases n with
    | zero => simp [pureTraces]
    | succ n =>
      have hn2 : n < rest.length := by simpa using Nat.lt_of_succ_lt_succ hn
      have := ih (idx + 1) n hn2
      simp only [pureTraces, List.getElem?_cons_succ, this]
      have harith : idx + 1 + n = idx + (n + 1) := by omega
      simp [harith]

theorem rowFiles_disjoint {d : String} {a b : Nat} (hab : a ≠ b) {q : String}
    (ha : q ∈ rowFiles d a) : q ∉ rowFiles d b :=
  fun hb => hab (rowFiles_eq_of_mem ha hb)

theorem image_mem_rowFiles (d : String) (k : Nat) : image_file d k ∈ rowFiles d k := by
  simp [rowFiles]

theorem audio_mem_rowFiles (d : String) (k : Nat) : audio_file d k ∈ rowFiles d k := by
  simp [rowFiles]

theorem video_mem_rowFiles (d : String) (k : Nat) : video_file d k ∈ rowFiles d k := by
  simp [rowFiles]

theorem processRows_fs_frame (env : Env) (output_dir language font_path : String)
    (font_size img_width img_height : Nat) (bg_color_rgb font_color_rgb : RGB) :
    ∀ (st : LoopState) (idx : Nat) (rows : List (List String)) (p : String),
      (∀ m, m < rows.length → p ∉ rowFiles output_dir (idx + m + 1)) →
      (p ∈ (processRows env output_dir language font_path font_size img_width img_height
          bg_color_rgb font_color_rgb st idx rows).fs ↔ p ∈ st.fs) := by
  intro st idx rows
  induction rows generalizing st idx with
  | nil => intro p _; rfl
  | cons r rest ih =>
    intro p hp
    have h0 : p ∉ rowFiles output_dir (idx + 1) := by
      have := hp 0 (by simp)
      simpa using this
    have hrest : ∀ m, m < rest.length → p ∉ rowFiles output_dir (idx + 1 + m + 1) := by
      intro m hm
      have := hp (m + 1) (by simp; omega)
      have harith : idx + (m + 1) + 1 = idx + 1 + m + 1 := by omega
      rwa [harith] at this
    rw [processRows]
    exact (ih _ (idx + 1) p hrest).trans
      (processRow_fs_frame env output_dir language font_path font_size img_width
        img_height bg_color_rgb font_color_rgb st idx r p h0)

theorem processRows_spec (env : Env) (output_dir language font_path : String)
    (font_size img_width img_height : Nat) (bg_color_rgb font_color_rgb : RGB) :
    ∀ (st : LoopState) (idx : Nat) (rows : List (List String)),
      font_path ∈ st.fs →
      (∀ m, m < rows.length → font_path ∉ rowFiles output_dir (idx + m + 1)) →
      (processRows env output_dir language font_path font_size img_width img_height
          bg_color_rgb font_color_rgb st idx rows).trace =
        st.trace ++ pureTraces env output_dir language idx rows ∧
      (processRows env output_dir language font_path font_size img_width img_height
          bg_color_rgb font_color_rgb st idx rows).individual_video_paths =
        st.individual_video_paths ++
          clipsOf output_dir (pureTraces env output_dir language idx rows) ∧
      font_path ∈ (processRows env output_dir language font_path font_size img_width
          img_height bg_color_rgb font_color_rgb st idx rows).fs := by
  intro st idx rows
  induction rows generalizing st idx with
  | nil => intro hf _; exact ⟨by simp [processRows, pureTraces], by simp [processRows, pureTraces, clipsOf], hf⟩
  | cons r rest ih =>
    intro hf hsep
    obtain ⟨ht, hp, _, _, _⟩ :=
      processRow_spec env output_dir language font_path font_size img_width img_height
        bg_color_rgb font_color_rgb st idx r hf
    have h0 : font_path ∉ rowFiles output_dir (idx + 1) := by
      have := hsep 0 (by simp)
      simpa using this
    have hf1 : font_path ∈ (processRow env output_dir language font_path font_size
        img_width img_height bg_color_rgb font_color_rgb st idx r).fs :=
      (processRow_fs_frame env output_dir language font_path font_size img_width
        img_height bg_color_rgb font_color_rgb st idx r font_path h0).mpr hf
    have hsep1 : ∀ m, m < rest.length → font_path ∉ rowFiles output_dir (idx + 1 + m + 1) := by
      intro m hm
      have := hsep (m + 1) (by simp; omega)
      have harith : idx + (m + 1) + 1 = idx + 1 + m + 1 := by omega
      rwa [harith] at this
    obtain ⟨iht, ihp, ihf⟩ := ih _ (idx + 1) hf1 hsep1
    refine ⟨?_, ?_, ihf⟩
    · rw [processRows, iht, ht, pureTraces]
      simp
    · rw [processRows, ihp, hp, pureTraces, clipsOf_cons, rowTracePure_item_num]
      simp

/-- What each row leaves on disk at the end of the whole loop:
the three artifacts of a failed row are gone, those of a successful row
are present, and a skipped (all-empty) row leaves exactly its
image behind (its audio/clip presence is whatever it was initially). -/
theorem processRows_row_fs (env : Env) (output_dir language font_path : String)
    (font_size img_width img_height : Nat) (bg_color_rgb font_color_rgb : RGB) :
    ∀ (st : LoopState) (idx : Nat) (rows : List (List String)),
      font_path ∈ st.fs →
      (∀ m, m < rows.length → font_path ∉ rowFiles output_dir (idx + m + 1)) →
      ∀ (n : Nat) (hn : n < rows.length),
      ((∃ m, (rowTracePure env output_dir language (idx + n) (rows.get ⟨n, hn⟩)).outcome = .failed m) →
        ∀ q ∈ rowFiles output_dir (idx + n + 1),
          q ∉ (processRows env output_dir language font_path font_size img_width img_height
            bg_color_rgb font_color_rgb st idx rows).fs) ∧
      ((∃ dq, (rowTracePure env output_dir language (idx + n) (rows.get ⟨n, hn⟩)).outcome = .ok dq) →
        ∀ q ∈ rowFiles output_dir (idx + n + 1),
          q ∈ (processRows env output_dir language font_path font_size img_width img_height
            bg_color_rgb font_color_rgb st idx rows).fs) ∧
      ((rowTracePure env output_dir language (idx + n) (rows.get ⟨n, hn⟩)).outcome = .skippedEmpty →
        image_file output_dir (idx + n + 1) ∈
          (processRows env output_dir language font_path font_size img_width img_height
            bg_color_rgb font_color_rgb st idx rows).fs ∧
        (audio_file output_dir (idx + n + 1) ∈
          (processRows env output_dir language font_path font_size img_width img_height
            bg_color_rgb font_color_rgb st idx rows).fs ↔
          audio_file output_dir (idx + n + 1) ∈ st.fs) ∧
        (video_file output_dir (idx + n + 1) ∈
          (processRows env output_dir language font_path font_size img_width img_height
            bg_color_rgb font_color_rgb st idx rows).fs ↔
          video_file output_dir (idx + n + 1) ∈ st.fs)) := by
  intro st idx rows
  induction rows generalizing st idx with
  | nil => intro _ _ n hn; simp at hn
  | cons r rest ih =>
    intro hf hsep n hn
    have h0 : font_path ∉ rowFiles output_dir (idx + 1) := by
      have := hsep 0 (by simp)
      simpa using this
    have hf1 : font_path ∈ (processRow env output_dir language font_path font_size
        img_width img_height bg_color_rgb font_color_rgb st idx r).fs :=
      (processRow_fs_frame env output_dir language font_path font_size img_width
        img_height bg_color_rgb font_color_rgb st idx r font_path h0).mpr hf
    have hsep1 : ∀ m, m < rest.length → font_path ∉ rowFiles output_dir (idx + 1 + m + 1) := by
      intro m hm
      have := hsep (m + 1) (by simp; omega)
      have harith : idx + (m + 1) + 1 = idx + 1 + m + 1 := by omega
      rwa [harith] at this
    obtain ⟨-, -, hfail, hskip, hok⟩ :=
      processRow_spec env output_dir language font_path font_size img_width img_height
        bg_color_rgb font_color_rgb st idx r hf
    cases n with
    | zero =>
      have hframe : ∀ q ∈ rowFiles output_dir (idx + 1),
          (q ∈ (processRows env output_dir language font_path font_size img_width
              img_height bg_color_rgb font_color_rgb
              (processRow env output_dir language font_path font_size img_width
                img_height bg_color_rgb font_color_rgb st idx r) (idx + 1) rest).fs ↔
            q ∈ (processRow env output_dir language font_path font_size img_width
              img_height bg_color_rgb font_color_rgb st idx r).fs) := by
        intro q hq
        refine processRows_fs_frame env output_dir language font_path font_size
          img_width img_height bg_color_rgb font_color_rgb _ (idx + 1) rest q ?_
        intro m hm
        exact rowFiles_disjoint (show idx + 1 ≠ idx + 1 + m + 1 by omega) hq
      simp only [List.get] at *
      refine ⟨?_, ?_, ?_⟩
      · intro hm q hq
        rw [processRows, hframe q hq]
        exact hfail hm q hq
      · intro hm q hq
        rw [processRows, hframe q hq, hok hm]
        simp only [rowFiles, List.mem_cons, List.not_mem_nil, or_false] at hq
        rcases hq with hq | hq | hq <;> subst hq <;> simp [FS.mem_add]
      · intro hm
        rw [processRows]
        have himg := hframe (image_file output_dir (idx + 1)) (by simp [rowFiles])
        have haud := hframe (audio_file output_dir (idx + 1)) (by simp [rowFiles])
        have hvid := hframe (video_file output_dir (idx + 1)) (by simp [rowFiles])
        rw [himg, haud, hvid, hskip hm]
        refine ⟨by simp [FS.mem_add], ?_, ?_⟩
        · rw [FS.mem_add]
          simp [(image_file_ne_audio_file output_dir (idx + 1) (idx + 1)).symm.elim]
          intro h
          exact absurd h.symm (image_file_ne_audio_file output_dir (idx + 1) (idx + 1))
        · rw [FS.mem_add]
          constructor
          · rintro (h | h)
            · exact absurd h.symm (image_file_ne_video_file output_dir (idx + 1) (idx + 1))
            · exact h
          · exact Or.inr
    | succ n =>
      have hn2 : n < rest.length := by simpa using Nat.lt_of_succ_lt_succ hn
      have hget : (r :: rest).get ⟨n + 1, hn⟩ = rest.get ⟨n, hn2⟩ := rfl
      have harith : idx + (n + 1) = idx + 1 + n := by omega
      have ihx := ih _ (idx + 1) hf1 hsep1 n hn2
      rw [processRows]
      rw [hget, harith]
      refine ⟨ihx.1, ihx.2.1, ?_⟩
      · intro hm
        obtain ⟨ha1, ha2, ha3⟩ := ihx.2.2 hm
        refine ⟨ha1, ?_, ?_⟩
        · rw [ha2]
          exact processRow_fs_frame env output_dir language font_path font_size
            img_width img_height bg_color_rgb font_color_rgb st idx r _
            (rowFiles_disjoint (show idx + 1 + n + 1 ≠ idx + 1 by omega)
              (audio_mem_rowFiles output_dir (idx + 1 + n + 1)))
        · rw [ha3]
          exact processRow_fs_frame env output_dir language font_path font_size
            img_width img_height bg_color_rgb font_color_rgb st idx r _
            (rowFiles_disjoint (show idx + 1 + n + 1 ≠ idx + 1 by omega)
              (video_mem_rowFiles output_dir (idx + 1 + n + 1)))

/-! ### The successful-clip list always points at existing files -/

theorem create_image_fs_of_ok {env : Env} {data_row : List String}
    {image_path : String} {width height : Nat} {bg_color font_color : RGB}
    {font_size : Nat} {font_path : String} {line_spacing margin wrap_width : Nat}
    {fs fs1 : FS} {t : String}
    (h : create_image_for_mcq env data_row image_path width height bg_color font_color
        font_size font_path line_spacing margin wrap_width fs = .ok (fs1, t)) :
    fs1 = FS.add fs image_path := by
  unfold create_image_for_mcq at h
  repeat' split at h
  all_goals simp_all

theorem create_audio_fs_of_ok {env : Env} {text audio_path lang : String} {fs fs2 : FS}
    (h : create_audio_for_mcq env text audio_path lang fs = .ok fs2) :
    fs2 = FS.add fs audio_path := by
  unfold create_audio_for_mcq at h
  repeat' split at h
  all_goals simp_all

theorem create_video_clip_fs_of_ok {env : Env} {image_path audio_path video_path : String}
    {fps : Nat} {fs fs3 : FS} {d : ℚ}
    (h : create_video_clip env image_path audio_path video_path fps fs = .ok (fs3, d)) :
    fs3 = FS.add fs video_path := by
  unfold create_video_clip at h
  repeat' split at h
  all_goals simp_all

/-- Either a row adds no clip, or it adds exactly its own clip and that
clip file exists afterwards. -/
theorem processRow_paths (env : Env) (output_dir language font_path : String)
    (font_size img_width img_height : Nat) (bg_color_rgb font_color_rgb : RGB)
    (st : LoopState) (idx : Nat) (data_row : List String) :
    (processRow env output_dir language font_path font_size img_width img_height
        bg_color_rgb font_color_rgb st idx data_row).individual_video_paths =
      st.individual_video_paths ∨
    ((processRow env output_dir language font_path font_size img_width img_height
        bg_color_rgb font_color_rgb st idx data_row).individual_video_paths =
      st.individual_video_paths ++ [video_file output_dir (idx + 1)] ∧
      video_file output_dir (idx + 1) ∈
        (processRow env output_dir language font_path font_size img_width img_height
          bg_color_rgb font_color_rgb st idx data_row).fs) := by
  unfold processRow
  rcases h1 : create_image_for_mcq env data_row (image_file output_dir (idx + 1))
      img_width img_height bg_color_rgb font_color_rgb font_size font_path
      DEFAULT_LINE_SPACING DEFAULT_MARGIN DEFAULT_TEXT_WRAP_WIDTH st.fs with e | ⟨fs1, text⟩
  · left; rfl
  · dsimp only
    by_cases htext : text = ""
    · simp only [htext, if_pos rfl]; left; rfl
    · simp only [htext, if_false]
      rcases h2 : create_audio_for_mcq env text (audio_file output_dir (idx + 1))
          language fs1 with e | fs2
      · left; rfl
      · dsimp only
        rcases h3 : create_video_clip env (image_file output_dir (idx + 1))
            (audio_file output_dir (idx + 1)) (video_file output_dir (idx + 1))
            DEFAULT_FPS fs2 with e | ⟨fs3, d⟩
        · left; rfl
        · right
          refine ⟨rfl, ?_⟩
          rw [create_video_clip_fs_of_ok h3]
          simp [FS.mem_add]

/-- Invariant of the loop: every stored clip path is the clip of an
already-processed row and its file exists. -/
def PathsInv (output_dir : String) (st : LoopState) (idx : Nat) : Prop :=
  ∀ p ∈ st.individual_video_paths,
    p ∈ st.fs ∧ ∃ k, k < idx ∧ p = video_file output_dir (k + 1)

theorem processRow_inv (env : Env) (output_dir language font_path : String)
    (font_size img_width img_height : Nat) (bg_color_rgb font_color_rgb : RGB)
    (st : LoopState) (idx : Nat) (data_row : List String)
    (hinv : PathsInv output_dir st idx) :
    PathsInv output_dir
      (processRow env output_dir language font_path font_size img_width img_height
        bg_color_rgb font_color_rgb st idx data_row) (idx + 1) := by
  intro p hp
  have hold : ∀ q ∈ st.individual_video_paths,
      q ∈ (processRow env output_dir language font_path font_size img_width img_height
        bg_color_rgb font_color_rgb st idx data_row).fs ∧
      ∃ k, k < idx + 1 ∧ q = video_file output_dir (k + 1) := by
    intro q hq
    obtain ⟨hqfs, k, hk, hqv⟩ := hinv q hq
    have hqrow : q ∉ rowFiles output_dir (idx + 1) := by
      rw [hqv]
      exact rowFiles_disjoint (show k + 1 ≠ idx + 1 by omega)
        (video_mem_rowFiles output_dir (k + 1))
    exact ⟨(processRow_fs_frame env output_dir language font_path font_size img_width
      img_height bg_color_rgb font_color_rgb st idx data_row q hqrow).mpr hqfs,
      k, by omega, hqv⟩
  rcases processRow_paths env output_dir language font_path font_size img_width
      img_height bg_color_rgb font_color_rgb st idx data_row with hsame | ⟨happ, hvid⟩
  · rw [hsame] at hp
    exact hold p hp
  · rw [happ] at hp
    rcases List.mem_append.mp hp with hp | hp
    · exact hold p hp
    · rw [List.mem_singleton] at hp
      subst hp
      exact ⟨hvid, idx, by omega, rfl⟩

theorem processRows_inv (env : Env) (output_dir language font_path : String)
    (font_size img_width img_height : Nat) (bg_color_rgb font_color_rgb : RGB) :
    ∀ (st : LoopState) (idx : Nat) (rows : List (List String)),
      PathsInv output_dir st idx →
      PathsInv output_dir
        (processRows env output_dir language font_path font_size img_width img_height
          bg_color_rgb font_color_rgb st idx rows) (idx + rows.length) := by
  intro st idx rows
  induction rows generalizing st idx with
  | nil => intro h; simpa [processRows] using h
  | cons r rest ih =>
    intro h
    rw [processRows]
    have := ih _ (idx + 1)
      (processRow_inv env output_dir language font_path font_size img_width img_height
        bg_color_rgb font_color_rgb st idx r h)
    have harith : idx + 1 + rest.length = idx + (r :: rest).length := by simp; omega
    rwa [harith] at this

/-! ### The orchestrator after a passing pre-flight -/

theorem create_mcq_video_run (env : Env)
    (csv_file_path output_filename language font_path : String)
    (font_size img_width img_height : Nat) (bg_color_rgb font_color_rgb : RGB)
    (rows : List (List String))
    (hcsv : csv_file_path ∈ env.fs0) (hfont : font_path ∈ env.fs0)
    (hmk : env.mkdirErr = none) (hread : env.readCsv = .ok rows) (hne : rows ≠ []) :
    create_mcq_video env csv_file_path output_filename language font_path font_size
        img_width img_height bg_color_rgb font_color_rgb =
      (if (processRows env (outputDir env.cwd output_filename) language font_path
            font_size img_width img_height bg_color_rgb font_color_rgb
            ⟨env.fs0, [], 0, []⟩ 0 rows).individual_video_paths = [] then
        ⟨msgNoClips,
          (processRows env (outputDir env.cwd output_filename) language font_path
            font_size img_width img_height bg_color_rgb font_color_rgb
            ⟨env.fs0, [], 0, []⟩ 0 rows).fs, [],
          (processRows env (outputDir env.cwd output_filename) language font_path
            font_size img_width img_height bg_color_rgb font_color_rgb
            ⟨env.fs0, [], 0, []⟩ 0 rows).trace, []⟩
      else
        match concatenate_videos env
            (processRows env (outputDir env.cwd output_filename) language font_path
              font_size img_width img_height bg_color_rgb font_color_rgb
              ⟨env.fs0, [], 0, []⟩ 0 rows).individual_video_paths
            (finalVideoPath env.cwd output_filename)
            (processRows env (outputDir env.cwd output_filename) language font_path
              font_size img_width img_height bg_color_rgb font_color_rgb
              ⟨env.fs0, [], 0, []⟩ 0 rows).fs with
        | .error e =>
          ⟨msgConcatFailed e,
            (processRows env (outputDir env.cwd output_filename) language font_path
              font_size img_width img_height bg_color_rgb font_color_rgb
              ⟨env.fs0, [], 0, []⟩ 0 rows).fs,
            [((processRows env (outputDir env.cwd output_filename) language font_path
                font_size img_width img_height bg_color_rgb font_color_rgb
                ⟨env.fs0, [], 0, []⟩ 0 rows).individual_video_paths,
              finalVideoPath env.cwd output_filename)],
            (processRows env (outputDir env.cwd output_filename) language font_path
              font_size img_width img_height bg_color_rgb font_color_rgb
              ⟨env.fs0, [], 0, []⟩ 0 rows).trace,
            (processRows env (outputDir env.cwd output_filename) language font_path
              font_size img_width img_height bg_color_rgb font_color_rgb
              ⟨env.fs0, [], 0, []⟩ 0 rows).individual_video_paths⟩
        | .ok fs2 =>
          ⟨finalVideoPath env.cwd output_filename, fs2,
            [((processRows env (outputDir env.cwd output_filename) language font_path
                font_size img_width img_height bg_color_rgb font_color_rgb
                ⟨env.fs0, [], 0, []⟩ 0 rows).individual_video_paths,
              finalVideoPath env.cwd output_filename)],
            (processRows env (outputDir env.cwd output_filename) language font_path
              font_size img_width img_height bg_color_rgb font_color_rgb
              ⟨env.fs0, [], 0, []⟩ 0 rows).trace,
            (processRows env (outputDir env.cwd output_filename) language font_path
              font_size img_width img_height bg_color_rgb font_color_rgb
              ⟨env.fs0, [], 0, []⟩ 0 rows).individual_video_paths⟩) := by
  have h1 : FS.has env.fs0 csv_file_path = true := FS.has_iff.mpr hcsv
  have h2 : FS.has env.fs0 font_path = true := FS.has_iff.mpr hfont
  unfold create_mcq_video
  simp only [h1, h2, hmk, hread, hne, if_false]
  rfl

/-! ### The rendered slide text equals the spec description of it -/

/-- Concatenation of lines, each followed by one space (the shape the
`text_content` accumulator produces). -/
def joinTrail : List String → String
  | [] => ""
  | l :: ls => l ++ " " ++ joinTrail ls

theorem foldl_append_trail (L : List String) :
    ∀ acc : String, L.foldl (fun a line => a ++ line ++ " ") acc = acc ++ joinTrail L := by
  induction L with
  | nil => intro acc; simp [joinTrail]
  | cons l ls ih =>
    intro acc
    rw [List.foldl_cons, ih, joinTrail]
    simp [String.append_assoc]

theorem joinTrail_append (A B : List String) :
    joinTrail (A ++ B) = joinTrail A ++ joinTrail B := by
  induction A with
  | nil => simp [joinTrail, String.empty_append]
  | cons a t ih => simp [joinTrail, ih, String.append_assoc]

theorem slideTextRaw_eq_joinTrail (env : Env) (wrap_width : Nat) (data_row : List String) :
    slideTextRaw env wrap_width data_row =
      joinTrail ((data_row.map (cellLines env wrap_width)).flatten) := by
  unfold slideTextRaw
  have aux : ∀ (row : List String) (acc : String),
      row.foldl (fun acc cell =>
        (cellLines env wrap_width cell).foldl (fun a line => a ++ line ++ " ") acc) acc =
      acc ++ joinTrail ((row.map (cellLines env wrap_width)).flatten) := by
    intro row
    induction row with
    | nil => intro acc; simp [joinTrail]
    | cons c cs ih =>
      intro acc
      rw [List.foldl_cons, ih, foldl_append_trail]
      simp [joinTrail_append, String.append_assoc]
  rw [aux data_row "", String.empty_append]

theorem joinTrail_eq_pyJoin (L : List String) (h : L ≠ []) :
    joinTrail L = pyJoin " " L ++ " " := by
  induction L with
  | nil => exact absurd rfl h
  | cons x t ih =>
    cases t with
    | nil => simp [joinTrail, pyJoin, String.append_empty]
    | cons y t2 =>
      rw [joinTrail, ih (by simp), pyJoin]
      simp [String.append_assoc]

theorem trimTrailWs_append_space (l : List Char) :
    trimTrailWs (l ++ [' ']) = trimTrailWs l := by
  have hws : (' ').isWhitespace = true := rfl
  simp [trimTrailWs, List.reverse_append, List.dropWhile_cons, hws]

theorem pyStrip_append_space (s : String) : pyStrip (s ++ " ") = pyStrip s := by
  unfold pyStrip
  have hd : (s ++ " ").data = s.data ++ [' '] := by
    rw [String.data_append]
  rw [hd, trimTrailWs_append_space]

theorem flatten_cellLines (env : Env) (wrap_width : Nat) (data_row : List String) :
    ((data_row.map (cellLines env wrap_width)).flatten) =
      (((data_row.map normalizeWs).filter (fun t => t ≠ "")).map
        (env.wrapLines wrap_width)).flatten := by
  induction data_row with
  | nil => rfl
  | cons c cs ih =>
    by_cases h : normalizeWs c = ""
    · simp [cellLines, h, ih]
    · simp [cellLines, h, ih]

/-- The spec sentence for the renderer output, written from the spec
words: the whitespace-normalized non-empty cells, each line-wrapped, all
drawn lines space-joined, surrounding whitespace stripped. -/
def specNarrationText (env : Env) (wrap_width : Nat) (data_row : List String) : String :=
  pyStrip (pyJoin " "
    ((((data_row.map normalizeWs).filter (fun t => t ≠ "")).map
      (env.wrapLines wrap_width)).flatten))

theorem slideText_eq_spec (env : Env) (wrap_width : Nat) (data_row : List String) :
    pyStrip (slideTextRaw env wrap_width data_row) =
      specNarrationText env wrap_width data_row := by
  unfold specNarrationText
  rw [slideTextRaw_eq_joinTrail, flatten_cellLines]
  rcases hL : (((data_row.map normalizeWs).filter (fun t => t ≠ "")).map
      (env.wrapLines wrap_width)).flatten with _ | ⟨l, ls⟩
  · rfl
  · rw [joinTrail_eq_pyJoin _ (by simp), pyStrip_append_space]

theorem slideText_of_all_empty (env : Env) (wrap_width : Nat) (data_row : List String)
    (h : ∀ c ∈ data_row, normalizeWs c = "") :
    pyStrip (slideTextRaw env wrap_width data_row) = "" := by
  rw [slideTextRaw_eq_joinTrail]
  have hc : data_row.map (cellLines env wrap_width) = data_row.map (fun _ => []) := by
    apply List.map_congr_left
    intro c hcmem
    simp [cellLines, h c hcmem]
  rw [hc]
  have hflat : (data_row.map (fun _ => ([] : List String))).flatten = [] := by
    simp
  rw [hflat]
  rfl

/-! ### The pre-flight error strings are pairwise distinct -/

theorem msg_get2 (lit x : String) (n : Nat) (hn : n < lit.data.length) :
    (lit ++ x).data[n]? = lit.data[n]? := by
  rw [String.data_append, List.getElem?_append, if_pos hn]

theorem data_length_append_ge (s t : String) : s.data.length ≤ (s ++ t).data.length := by
  rw [String.data_append, List.length_append]; omega

theorem msgCsvMissing_get7 (csv_file_path : String) :
    (msgCsvMissing csv_file_path).data[7]? = some 'I' := by
  have h1 : (7 : Nat) < ("Error: Input CSV file not found at \x27" : String).data.length := by decide
  have h2 : (7 : Nat) < (("Error: Input CSV file not found at \x27" : String) ++ csv_file_path).data.length :=
    lt_of_lt_of_le h1 (data_length_append_ge _ _)
  unfold msgCsvMissing
  rw [msg_get2 _ _ 7 h2, msg_get2 _ _ 7 h1]
  decide

theorem msgFontMissing_get7 (font_path : String) :
    (msgFontMissing font_path).data[7]? = some 'F' := by
  have h1 : (7 : Nat) < ("Error: Font file not found at \x27" : String).data.length := by decide
  have h2 : (7 : Nat) < (("Error: Font file not found at \x27" : String) ++ font_path).data.length :=
    lt_of_lt_of_le h1 (data_length_append_ge _ _)
  unfold msgFontMissing
  rw [msg_get2 _ _ 7 h2, msg_get2 _ _ 7 h1]
  decide

theorem msgCsvNoData_get7 (csv_file_path : String) :
    (msgCsvNoData csv_file_path).data[7]? = some 'C' := by
  have h1 : (7 : Nat) < ("Error: CSV file \x27" : String).data.length := by decide
  have h2 : (7 : Nat) < (("Error: CSV file \x27" : String) ++ csv_file_path).data.length :=
    lt_of_lt_of_le h1 (data_length_append_ge _ _)
  unfold msgCsvNoData
  rw [msg_get2 _ _ 7 h2, msg_get2 _ _ 7 h1]
  decide

theorem msgCsvMissing_get5 (csv_file_path : String) :
    (msgCsvMissing csv_file_path).data[5]? = some ':' := by
  have h1 : (5 : Nat) < ("Error: Input CSV file not found at \x27" : String).data.length := by decide
  have h2 : (5 : Nat) < (("Error: Input CSV file not found at \x27" : String) ++ csv_file_path).data.length :=
    lt_of_lt_of_le h1 (data_length_append_ge _ _)
  unfold msgCsvMissing
  rw [msg_get2 _ _ 5 h2, msg_get2 _ _ 5 h1]
  decide

theorem msgFontMissing_get5 (font_path : String) :
    (msgFontMissing font_path).data[5]? = some ':' := by
  have h1 : (5 : Nat) < ("Error: Font file not found at \x27" : String).data.length := by decide
  have h2 : (5 : Nat) < (("Error: Font file not found at \x27" : String) ++ font_path).data.length :=
    lt_of_lt_of_le h1 (data_length_append_ge _ _)
  unfold msgFontMissing
  rw [msg_get2 _ _ 5 h2, msg_get2 _ _ 5 h1]
  decide

theorem msgCsvNoData_get5 (csv_file_path : String) :
    (msgCsvNoData csv_file_path).data[5]? = some ':' := by
  have h1 : (5 : Nat) < ("Error: CSV file \x27" : String).data.length := by decide
  have h2 : (5 : Nat) < (("Error: CSV file \x27" : String) ++ csv_file_path).data.length :=
    lt_of_lt_of_le h1 (data_length_append_ge _ _)
  unfold msgCsvNoData
  rw [msg_get2 _ _ 5 h2, msg_get2 _ _ 5 h1]
  decide

theorem msgCsvUnreadable_get5 (csv_file_path e : String) :
    (msgCsvUnreadable csv_file_path e).data[5]? = some ' ' := by
  have h1 : (5 : Nat) < ("Error reading CSV file \x27" : String).data.length := by decide
  have h2 : (5 : Nat) < (("Error reading CSV file \x27" : String) ++ csv_file_path).data.length :=
    lt_of_lt_of_le h1 (data_length_append_ge _ _)
  have h3 : (5 : Nat) < ((("Error reading CSV file \x27" : String) ++ csv_file_path) ++ "\x27: ").data.length :=
    lt_of_lt_of_le h2 (data_length_append_ge _ _)
  unfold msgCsvUnreadable
  rw [msg_get2 _ _ 5 h3, msg_get2 _ _ 5 h2, msg_get2 _ _ 5 h1]
  decide

/-! ### Concatenator equations and post-loop facts -/

theorem concatenate_videos_ok {env : Env} {video_paths : List String}
    {final_video_path : String} {fs : FS}
    (hne : video_paths ≠ []) (hall : ∀ p ∈ video_paths, p ∈ fs)
    (hc : env.concatErr = none) :
    concatenate_videos env video_paths final_video_path fs =
      .ok (FS.add fs final_video_path) := by
  unfold concatenate_videos
  rw [if_neg hne]
  have hfind : video_paths.find? (fun p => ! FS.has fs p) = none := by
    rw [List.find?_eq_none]
    intro x hx
    simp [FS.has_iff.mpr (hall x hx)]
  rw [hfind, hc]

theorem concatenate_videos_err {env : Env} {video_paths : List String}
    {final_video_path : String} {fs : FS} {e : String}
    (hne : video_paths ≠ []) (hall : ∀ p ∈ video_paths, p ∈ fs)
    (hc : env.concatErr = some e) :
    concatenate_videos env video_paths final_video_path fs =
      .error ("Error concatenating videos to " ++ final_video_path ++ ": " ++ e) := by
  unfold concatenate_videos
  rw [if_neg hne]
  have hfind : video_paths.find? (fun p => ! FS.has fs p) = none := by
    rw [List.find?_eq_none]
    intro x hx
    simp [FS.has_iff.mpr (hall x hx)]
  rw [hfind, hc]

theorem concatenate_videos_fs_of_ok {env : Env} {video_paths : List String}
    {final_video_path : String} {fs fs2 : FS}
    (h : concatenate_videos env video_paths final_video_path fs = .ok fs2) :
    fs2 = FS.add fs final_video_path := by
  unfold concatenate_videos at h
  repeat' split at h
  all_goals simp_all

theorem run_trace_eq (env : Env)
    (csv_file_path output_filename language font_path : String)
    (font_size img_width img_height : Nat) (bg_color_rgb font_color_rgb : RGB)
    (rows : List (List String))
    (hcsv : csv_file_path ∈ env.fs0) (hfont : font_path ∈ env.fs0)
    (hmk : env.mkdirErr = none) (hread : env.readCsv = .ok rows) (hne : rows ≠ []) :
    (create_mcq_video env csv_file_path output_filename language font_path font_size
        img_width img_height bg_color_rgb font_color_rgb).trace =
      (processRows env (outputDir env.cwd output_filename) language font_path
        font_size img_width img_height bg_color_rgb font_color_rgb
        ⟨env.fs0, [], 0, []⟩ 0 rows).trace := by
  rw [create_mcq_video_run env csv_file_path output_filename language font_path
    font_size img_width img_height bg_color_rgb font_color_rgb rows hcsv hfont hmk hread hne]
  split
  · rfl
  · split <;> rfl

theorem run_fs_cases (env : Env)
    (csv_file_path output_filename language font_path : String)
    (font_size img_width img_height : Nat) (bg_color_rgb font_color_rgb : RGB)
    (rows : List (List String))
    (hcsv : csv_file_path ∈ env.fs0) (hfont : font_path ∈ env.fs0)
    (hmk : env.mkdirErr = none) (hread : env.readCsv = .ok rows) (hne : rows ≠ []) :
    (create_mcq_video env csv_file_path output_filename language font_path font_size
        img_width img_height bg_color_rgb font_color_rgb).fs =
      (processRows env (outputDir env.cwd output_filename) language font_path
        font_size img_width img_height bg_color_rgb font_color_rgb
        ⟨env.fs0, [], 0, []⟩ 0 rows).fs ∨
    (create_mcq_video env csv_file_path output_filename language font_path font_size
        img_width img_height bg_color_rgb font_color_rgb).fs =
      FS.add (processRows env (outputDir env.cwd output_filename) language font_path
        font_size img_width img_height bg_color_rgb font_color_rgb
        ⟨env.fs0, [], 0, []⟩ 0 rows).fs (finalVideoPath env.cwd output_filename) := by
  rw [create_mcq_video_run env csv_file_path output_filename language font_path
    font_size img_width img_height bg_color_rgb font_color_rgb rows hcsv hfont hmk hread hne]
  split
  · left; rfl
  · rcases hcv : concatenate_videos env
        (processRows env (outputDir env.cwd output_filename) language font_path
          font_size img_width img_height bg_color_rgb font_color_rgb
          ⟨env.fs0, [], 0, []⟩ 0 rows).individual_video_paths
        (finalVideoPath env.cwd output_filename)
        (processRows env (outputDir env.cwd output_filename) language font_path
          font_size img_width img_height bg_color_rgb font_color_rgb
          ⟨env.fs0, [], 0, []⟩ 0 rows).fs with e | fs2
    · left; rfl
    · right
      dsimp only
      exact concatenate_videos_fs_of_ok hcv

theorem rowTracePure_text (env : Env) (output_dir language : String) (idx : Nat)
    (data_row : List String) :
    (rowTracePure env output_dir language idx data_row).text = none ∨
    (rowTracePure env output_dir language idx data_row).text =
      some (pyStrip (slideTextRaw env DEFAULT_TEXT_WRAP_WIDTH data_row)) := by
  unfold rowTracePure
  rcases hsave : env.imageSaveErr (image_file output_dir (idx + 1)) with _ | e
  · dsimp only
    by_cases htext : pyStrip (slideTextRaw env DEFAULT_TEXT_WRAP_WIDTH data_row) = ""
    · right; simp [htext]
    · simp only [htext, if_false]
      rcases htts : env.ttsErr (pyStrip (slideTextRaw env DEFAULT_TEXT_WRAP_WIDTH data_row))
          (audio_file output_dir (idx + 1)) language with _ | e
      · dsimp only
        rcases hopen : env.audioOpen (audio_file output_dir (idx + 1)) with e | durOpt
        · right; rfl
        · dsimp only
          rcases hwrite : env.videoWriteErr (video_file output_dir (idx + 1)) with _ | e
          · right; rfl
          · right; rfl
      · right; rfl
  · left; rfl

/-! ### Every failure return starts with the word Error -/

theorem err_shape0 {lit rest : String} (hl : lit = "Error" ++ rest) :
    ∃ t, lit = "Error" ++ t := ⟨rest, hl⟩

theorem err_shape1 {lit rest : String} (hl : lit = "Error" ++ rest) (x : String) :
    ∃ t, lit ++ x = "Error" ++ t :=
  ⟨rest ++ x, by rw [hl]; simp [String.append_assoc]⟩

theorem err_shape2 {lit rest : String} (hl : lit = "Error" ++ rest) (x y : String) :
    ∃ t, lit ++ x ++ y = "Error" ++ t :=
  ⟨rest ++ (x ++ y), by rw [hl]; simp [String.append_assoc]⟩

theorem err_shape3 {lit rest : String} (hl : lit = "Error" ++ rest) (x y z : String) :
    ∃ t, lit ++ x ++ y ++ z = "Error" ++ t :=
  ⟨rest ++ (x ++ (y ++ z)), by rw [hl]; simp [String.append_assoc]⟩

theorem msgCsvMissing_err (csv_file_path : String) :
    ∃ t, msgCsvMissing csv_file_path = "Error" ++ t :=
  err_shape2 (show ("Error: Input CSV file not found at \x27" : String) =
    "Error" ++ ": Input CSV file not found at \x27" by decide) csv_file_path "\x27"

theorem msgFontMissing_err (font_path : String) :
    ∃ t, msgFontMissing font_path = "Error" ++ t :=
  err_shape2 (show ("Error: Font file not found at \x27" : String) =
    "Error" ++ ": Font file not found at \x27" by decide) font_path
    "\x27. Please provide a valid path."

theorem msgCsvNoData_err (csv_file_path : String) :
    ∃ t, msgCsvNoData csv_file_path = "Error" ++ t :=
  err_shape2 (show ("Error: CSV file \x27" : String) =
    "Error" ++ ": CSV file \x27" by decide) csv_file_path
    "\x27 seems to be empty or contains no valid data rows."

theorem msgCsvEmpty_err (csv_file_path : String) :
    ∃ t, msgCsvEmpty csv_file_path = "Error" ++ t :=
  err_shape2 (show ("Error: CSV file \x27" : String) =
    "Error" ++ ": CSV file \x27" by decide) csv_file_path "\x27 is empty."

theorem msgCsvUnreadable_err (csv_file_path e : String) :
    ∃ t, msgCsvUnreadable csv_file_path e = "Error" ++ t :=
  err_shape3 (show ("Error reading CSV file \x27" : String) =
    "Error" ++ " reading CSV file \x27" by decide) csv_file_path "\x27: " e

theorem msgNoClips_err : ∃ t, msgNoClips = "Error" ++ t :=
  err_shape0 (show msgNoClips =
    "Error" ++ ": No individual video clips were successfully generated. Final video cannot be created."
    by decide)

theorem msgConcatFailed_err (e : String) : ∃ t, msgConcatFailed e = "Error" ++ t :=
  err_shape1 (show ("Error during final video concatenation: " : String) =
    "Error" ++ " during final video concatenation: " by decide) e

theorem msgUnexpected_err (e : String) : ∃ t, msgUnexpected e = "Error" ++ t :=
  err_shape1 (show ("Error: An unexpected error occurred during video generation: " : String) =
    "Error" ++ ": An unexpected error occurred during video generation: " by decide) e

/-! ### Pairwise distinctness of the pre-flight messages -/

theorem msgCsvMissing_ne_msgFontMissing (p q : String) :
    msgCsvMissing p ≠ msgFontMissing q := by
  intro h
  have h2 := congrArg (fun s => s.data[7]?) h
  simp only at h2
  rw [msgCsvMissing_get7, msgFontMissing_get7] at h2
  exact absurd h2 (by decide)

theorem msgCsvMissing_ne_msgCsvNoData (p q : String) :
    msgCsvMissing p ≠ msgCsvNoData q := by
  intro h
  have h2 := congrArg (fun s => s.data[7]?) h
  simp only at h2
  rw [msgCsvMissing_get7, msgCsvNoData_get7] at h2
  exact absurd h2 (by decide)

theorem msgCsvMissing_ne_msgCsvUnreadable (p q e : String) :
    msgCsvMissing p ≠ msgCsvUnreadable q e := by
  intro h
  have h2 := congrArg (fun s => s.data[5]?) h
  simp only at h2
  rw [msgCsvMissing_get5, msgCsvUnreadable_get5] at h2
  exact absurd h2 (by decide)

theorem msgFontMissing_ne_msgCsvNoData (p q : String) :
    msgFontMissing p ≠ msgCsvNoData q := by
  intro h
  have h2 := congrArg (fun s => s.data[7]?) h
  simp only at h2
  rw [msgFontMissing_get7, msgCsvNoData_get7] at h2
  exact absurd h2 (by decide)

theorem msgFontMissing_ne_msgCsvUnreadable (p q e : String) :
    msgFontMissing p ≠ msgCsvUnreadable q e := by
  intro h
  have h2 := congrArg (fun s => s.data[5]?) h
  simp only at h2
  rw [msgFontMissing_get5, msgCsvUnreadable_get5] at h2
  exact absurd h2 (by decide)

theorem msgCsvNoData_ne_msgCsvUnreadable (p q e : String) :
    msgCsvNoData p ≠ msgCsvUnreadable q e := by
  intro h
  have h2 := congrArg (fun s => s.data[5]?) h
  simp only at h2
  rw [msgCsvNoData_get5, msgCsvUnreadable_get5] at h2
  exact absurd h2 (by decide)

/-! ### Concrete environments for the closed instances -/

/-- All library calls succeed; two data rows, the second blank. -/
def envAllOk : Env :=
  ⟨"/cwd", ["data.csv", "font.ttf"],
   fun _ s => [s],
   fun _ => none,
   fun _ _ _ => none,
   fun _ => .ok (some 2),
   fun _ => none,
   none, none,
   .ok [["Q1", "A", "B"], [" "]]⟩

/-- Speech synthesis fails for the audio file of the first row; everything
else succeeds. -/
def envRowFail : Env :=
  ⟨"/cwd", ["data.csv", "font.ttf"],
   fun _ s => [s],
   fun _ => none,
   fun _ p _ => if p = "/cwd/out_output/mcq_audio_1.mp3" then some "netdown" else none,
   fun _ => .ok (some 2),
   fun _ => none,
   none, none,
   .ok [["Q1"], ["Q2"]]⟩

/-- Final concatenation fails; the single row succeeds. -/
def envConcatFail : Env :=
  ⟨"/cwd", ["data.csv", "font.ttf"],
   fun _ s => [s],
   fun _ => none,
   fun _ _ _ => none,
   fun _ => .ok (some 2),
   fun _ => none,
   some "muxboom", none,
   .ok [["Q1"]]⟩

/-- No file at all exists initially. -/
def envNoFiles : Env :=
  ⟨"/cwd", [],
   fun _ s => [s],
   fun _ => none,
   fun _ _ _ => none,
   fun _ => .ok (some 2),
   fun _ => none,
   none, none,
   .ok []⟩

/-! ### The claims -/

/-- C1: `create_mcq_video` always returns a string and never raises across
its boundary (the model function is total); the returned string is either
the absolute path of the final video, or a failure message starting with
the word Error. -/
theorem c1_boundary_returns_string (env : Env)
    (csv_file_path output_filename language font_path : String)
    (font_size img_width img_height : Nat) (bg_color_rgb font_color_rgb : RGB) :
    (create_mcq_video env csv_file_path output_filename language font_path font_size
        img_width img_height bg_color_rgb font_color_rgb).ret =
      finalVideoPath env.cwd output_filename ∨
    ∃ t, (create_mcq_video env csv_file_path output_filename language font_path font_size
        img_width img_height bg_color_rgb font_color_rgb).ret = "Error" ++ t := by
  unfold create_mcq_video
  repeat' split
  all_goals dsimp only
  all_goals repeat' split
  all_goals try dsimp only
  all_goals first
    | exact Or.inl rfl
    | exact Or.inr (msgCsvMissing_err _)
    | exact Or.inr (msgFontMissing_err _)
    | exact Or.inr (msgUnexpected_err _)
    | exact Or.inr (msgCsvEmpty_err _)
    | exact Or.inr (msgCsvUnreadable_err _ _)
    | exact Or.inr (msgCsvNoData_err _)
    | exact Or.inr msgNoClips_err
    | exact Or.inr (msgConcatFailed_err _)

/-- C5: the clip composer returns the audio duration when it is a known
positive value, and exactly 1.0 when the duration is unknown (None) or
non-positive; the produced clip is timed to that effective duration. -/
theorem c5_clip_duration (env : Env) (image_path audio_path video_path : String)
    (fps : Nat) (fs : FS) (durOpt : Option ℚ)
    (himg : FS.has fs image_path = true) (haud : FS.has fs audio_path = true)
    (hopen : env.audioOpen audio_path = .ok durOpt)
    (hwrite : env.videoWriteErr video_path = none) :
    (∀ d, durOpt = some d → 0 < d →
      create_video_clip env image_path audio_path video_path fps fs =
        .ok (FS.add fs video_path, d)) ∧
    (durOpt = none →
      create_video_clip env image_path audio_path video_path fps fs =
        .ok (FS.add fs video_path, 1)) ∧
    (∀ d, durOpt = some d → d ≤ 0 →
      create_video_clip env image_path audio_path video_path fps fs =
        .ok (FS.add fs video_path, 1)) := by
  refine ⟨?_, ?_, ?_⟩
  · intro d hd hpos
    subst hd
    rw [create_video_clip_ok himg haud hopen hwrite]
    simp [not_le.mpr hpos]
  · intro hd
    subst hd
    rw [create_video_clip_ok himg haud hopen hwrite]
  · intro d hd hle
    subst hd
    rw [create_video_clip_ok himg haud hopen hwrite]
    simp [hle]

/-- Closed instance of C5 at a concrete environment. -/
theorem c5_clip_duration_witness :
    create_video_clip envAllOk "/cwd/img.png" "/cwd/aud.mp3" "/cwd/vid.mp4" 24
        ["/cwd/img.png", "/cwd/aud.mp3"] =
      .ok (FS.add ["/cwd/img.png", "/cwd/aud.mp3"] "/cwd/vid.mp4", 2) :=
  (c5_clip_duration envAllOk "/cwd/img.png" "/cwd/aud.mp3" "/cwd/vid.mp4" 24
    ["/cwd/img.png", "/cwd/aud.mp3"] (some 2) rfl rfl rfl rfl).1 2 rfl (by decide)

/-- C7: when the font is present and saving succeeds, the text returned by
the slide renderer is exactly the spec description: the
whitespace-normalized non-empty cells, each wrapped, all drawn lines
space-joined, with surrounding whitespace stripped. -/
theorem c7_renderer_text (env : Env) (data_row : List String) (image_path : String)
    (width height : Nat) (bg_color font_color : RGB) (font_size : Nat)
    (font_path : String) (line_spacing margin wrap_width : Nat) (fs : FS)
    (hfont : FS.has fs font_path = true)
    (hsave : env.imageSaveErr image_path = none) :
    create_image_for_mcq env data_row image_path width height bg_color font_color
        font_size font_path line_spacing margin wrap_width fs =
      .ok (FS.add fs image_path, specNarrationText env wrap_width data_row) := by
  rw [create_image_ok hfont hsave, slideText_eq_spec]

/-- Closed instance of C7 at a concrete row with an empty-after-cleanup
cell. -/
theorem c7_renderer_text_witness :
    create_image_for_mcq envAllOk ["Q1", " ", "A  B"] "/cwd/i.png" 1920 1080
        (0, 127, 215) (255, 255, 255) 70 "font.ttf" 10 80 45 ["font.ttf"] =
      .ok (FS.add ["font.ttf"] "/cwd/i.png",
        specNarrationText envAllOk 45 ["Q1", " ", "A  B"]) :=
  c7_renderer_text envAllOk ["Q1", " ", "A  B"] "/cwd/i.png" 1920 1080
    (0, 127, 215) (255, 255, 255) 70 "font.ttf" 10 80 45 ["font.ttf"] rfl rfl

/-- C9: when both the input table and the font are missing, the returned
message is the missing-input-file one, never the missing-font one: the
input check runs first. -/
theorem c9_input_check_precedence (env : Env)
    (csv_file_path output_filename language font_path : String)
    (font_size img_width img_height : Nat) (bg_color_rgb font_color_rgb : RGB)
    (hcsv : csv_file_path ∉ env.fs0) (hfontmiss : font_path ∉ env.fs0) :
    (create_mcq_video env csv_file_path output_filename language font_path font_size
        img_width img_height bg_color_rgb font_color_rgb).ret =
      msgCsvMissing csv_file_path ∧
    (create_mcq_video env csv_file_path output_filename language font_path font_size
        img_width img_height bg_color_rgb font_color_rgb).ret ≠
      msgFontMissing font_path := by
  have h1 : FS.has env.fs0 csv_file_path = false := FS.has_false_iff.mpr hcsv
  unfold create_mcq_video
  rw [if_pos h1]
  exact ⟨rfl, msgCsvMissing_ne_msgFontMissing _ _⟩

/-- Closed instance of C9: both paths missing, input-file message wins. -/
theorem c9_input_check_precedence_witness :
    (create_mcq_video envNoFiles "missing.csv" "out.mp4" "en" "nofont.ttf" 70 1920 1080
        (0, 127, 215) (255, 255, 255)).ret = msgCsvMissing "missing.csv" ∧
    (create_mcq_video envNoFiles "missing.csv" "out.mp4" "en" "nofont.ttf" 70 1920 1080
        (0, 127, 215) (255, 255, 255)).ret ≠ msgFontMissing "nofont.ttf" :=
  c9_input_check_precedence envNoFiles "missing.csv" "out.mp4" "en" "nofont.ttf"
    70 1920 1080 (0, 127, 215) (255, 255, 255) (by decide) (by decide)

theorem run_successPaths_eq (env : Env)
    (csv_file_path output_filename language font_path : String)
    (font_size img_width img_height : Nat) (bg_color_rgb font_color_rgb : RGB)
    (rows : List (List String))
    (hcsv : csv_file_path ∈ env.fs0) (hfont : font_path ∈ env.fs0)
    (hmk : env.mkdirErr = none) (hread : env.readCsv = .ok rows) (hne : rows ≠ []) :
    (create_mcq_video env csv_file_path output_filename language font_path font_size
        img_width img_height bg_color_rgb font_color_rgb).successPaths =
      (processRows env (outputDir env.cwd output_filename) language font_path
        font_size img_width img_height bg_color_rgb font_color_rgb
        ⟨env.fs0, [], 0, []⟩ 0 rows).individual_video_paths := by
  rw [create_mcq_video_run env csv_file_path output_filename language font_path
    font_size img_width img_height bg_color_rgb font_color_rgb rows hcsv hfont hmk hread hne]
  split
  · next h => exact h.symm
  · split <;> rfl

/-- C8: each of the four pre-flight failures (input file missing, font
missing, table empty after dropping blank rows, table unreadable) is
detected before the per-row loop, returns its own distinct user-facing
message, and aborts with the filesystem untouched and no row processed. -/
theorem c8_preflight_errors (env : Env)
    (csv_file_path output_filename language font_path : String)
    (font_size img_width img_height : Nat) (bg_color_rgb font_color_rgb : RGB) :
    (csv_file_path ∉ env.fs0 →
      create_mcq_video env csv_file_path output_filename language font_path font_size
          img_width img_height bg_color_rgb font_color_rgb =
        ⟨msgCsvMissing csv_file_path, env.fs0, [], [], []⟩) ∧
    (csv_file_path ∈ env.fs0 → font_path ∉ env.fs0 →
      create_mcq_video env csv_file_path output_filename language font_path font_size
          img_width img_height bg_color_rgb font_color_rgb =
        ⟨msgFontMissing font_path, env.fs0, [], [], []⟩) ∧
    (csv_file_path ∈ env.fs0 → font_path ∈ env.fs0 → env.mkdirErr = none →
      env.readCsv = .ok [] →
      create_mcq_video env csv_file_path output_filename language font_path font_size
          img_width img_height bg_color_rgb font_color_rgb =
        ⟨msgCsvNoData csv_file_path, env.fs0, [], [], []⟩) ∧
    (∀ e, csv_file_path ∈ env.fs0 → font_path ∈ env.fs0 → env.mkdirErr = none →
      env.readCsv = .err e →
      create_mcq_video env csv_file_path output_filename language font_path font_size
          img_width img_height bg_color_rgb font_color_rgb =
        ⟨msgCsvUnreadable csv_file_path e, env.fs0, [], [], []⟩) ∧
    (∀ p q, msgCsvMissing p ≠ msgFontMissing q) ∧
    (∀ p q, msgCsvMissing p ≠ msgCsvNoData q) ∧
    (∀ p q e, msgCsvMissing p ≠ msgCsvUnreadable q e) ∧
    (∀ p q, msgFontMissing p ≠ msgCsvNoData q) ∧
    (∀ p q e, msgFontMissing p ≠ msgCsvUnreadable q e) ∧
    (∀ p q e, msgCsvNoData p ≠ msgCsvUnreadable q e) := by
  refine ⟨?_, ?_, ?_, ?_, msgCsvMissing_ne_msgFontMissing, msgCsvMissing_ne_msgCsvNoData,
    msgCsvMissing_ne_msgCsvUnreadable, msgFontMissing_ne_msgCsvNoData,
    msgFontMissing_ne_msgCsvUnreadable, msgCsvNoData_ne_msgCsvUnreadable⟩
  · intro hcsv
    have h1 : FS.has env.fs0 csv_file_path = false := FS.has_false_iff.mpr hcsv
    unfold create_mcq_video
    rw [if_pos h1]
  · intro hcsv hfontm
    have h1 : FS.has env.fs0 csv_file_path = true := FS.has_iff.mpr hcsv
    have h2 : FS.has env.fs0 font_path = false := FS.has_false_iff.mpr hfontm
    unfold create_mcq_video
    simp [h1, h2]
  · intro hcsv hfontp hmk hread
    have h1 : FS.has env.fs0 csv_file_path = true := FS.has_iff.mpr hcsv
    have h2 : FS.has env.fs0 font_path = true := FS.has_iff.mpr hfontp
    unfold create_mcq_video
    simp [h1, h2, hmk, hread]
  · intro e hcsv hfontp hmk hread
    have h1 : FS.has env.fs0 csv_file_path = true := FS.has_iff.mpr hcsv
    have h2 : FS.has env.fs0 font_path = true := FS.has_iff.mpr hfontp
    unfold create_mcq_video
    simp [h1, h2, hmk, hread]

/-- Closed instance of C8: missing input file aborts with the untouched
filesystem and the missing-input message. -/
theorem c8_preflight_errors_witness :
    create_mcq_video envNoFiles "missing.csv" "out.mp4" "en" "font.ttf" 70 1920 1080
        (0, 127, 215) (255, 255, 255) =
      ⟨msgCsvMissing "missing.csv", envNoFiles.fs0, [], [], []⟩ :=
  (c8_preflight_errors envNoFiles "missing.csv" "out.mp4" "en" "font.ttf" 70 1920 1080
    (0, 127, 215) (255, 255, 255)).1 (by decide)

/-- C2: after the loop, an empty successful-clip list short-circuits into
the aggregate error without any call into the concatenator; a non-empty
one leads to exactly one concatenator invocation over the clips of the
successful rows in row order, whose success returns the final path and whose
failure returns the wrapped error string. -/
theorem c2_concat_gate (env : Env)
    (csv_file_path output_filename language font_path : String)
    (font_size img_width img_height : Nat) (bg_color_rgb font_color_rgb : RGB)
    (rows : List (List String))
    (hcsv : csv_file_path ∈ env.fs0) (hfont : font_path ∈ env.fs0)
    (hmk : env.mkdirErr = none) (hread : env.readCsv = .ok rows) (hne : rows ≠ [])
    (hsep : ∀ m, m < rows.length →
      font_path ∉ rowFiles (outputDir env.cwd output_filename) (m + 1)) :
    (create_mcq_video env csv_file_path output_filename language font_path font_size
        img_width img_height bg_color_rgb font_color_rgb).successPaths =
      clipsOf (outputDir env.cwd output_filename)
        (pureTraces env (outputDir env.cwd output_filename) language 0 rows) ∧
    (clipsOf (outputDir env.cwd output_filename)
        (pureTraces env (outputDir env.cwd output_filename) language 0 rows) = [] →
      (create_mcq_video env csv_file_path output_filename language font_path font_size
          img_width img_height bg_color_rgb font_color_rgb).ret = msgNoClips ∧
      (create_mcq_video env csv_file_path output_filename language font_path font_size
          img_width img_height bg_color_rgb font_color_rgb).concatCalls = []) ∧
    (clipsOf (outputDir env.cwd output_filename)
        (pureTraces env (outputDir env.cwd output_filename) language 0 rows) ≠ [] →
      (create_mcq_video env csv_file_path output_filename language font_path font_size
          img_width img_height bg_color_rgb font_color_rgb).concatCalls =
        [(clipsOf (outputDir env.cwd output_filename)
            (pureTraces env (outputDir env.cwd output_filename) language 0 rows),
          finalVideoPath env.cwd output_filename)] ∧
      (env.concatErr = none →
        (create_mcq_video env csv_file_path output_filename language font_path font_size
            img_width img_height bg_color_rgb font_color_rgb).ret =
          finalVideoPath env.cwd output_filename) ∧
      (∀ e, env.concatErr = some e →
        (create_mcq_video env csv_file_path output_filename language font_path font_size
            img_width img_height bg_color_rgb font_color_rgb).ret =
          msgConcatFailed ("Error concatenating videos to " ++
            finalVideoPath env.cwd output_filename ++ ": " ++ e))) := by
  have hsep0 : ∀ m, m < rows.length →
      font_path ∉ rowFiles (outputDir env.cwd output_filename) (0 + m + 1) := by
    intro m hm
    have := hsep m hm
    simpa using this
  obtain ⟨htr, hpaths, hffs⟩ := processRows_spec env (outputDir env.cwd output_filename)
    language font_path font_size img_width img_height bg_color_rgb font_color_rgb
    ⟨env.fs0, [], 0, []⟩ 0 rows hfont hsep0
  simp only [List.nil_append] at hpaths
  have hinv := processRows_inv env (outputDir env.cwd output_filename) language font_path
    font_size img_width img_height bg_color_rgb font_color_rgb
    ⟨env.fs0, [], 0, []⟩ 0 rows (by intro p hp; simp at hp)
  rw [create_mcq_video_run env csv_file_path output_filename language font_path
    font_size img_width img_height bg_color_rgb font_color_rgb rows hcsv hfont hmk hread hne]
  by_cases hempty : (processRows env (outputDir env.cwd output_filename) language font_path
      font_size img_width img_height bg_color_rgb font_color_rgb
      ⟨env.fs0, [], 0, []⟩ 0 rows).individual_video_paths = []
  · rw [if_pos hempty]
    rw [hpaths] at hempty
    exact ⟨hempty.symm, fun _ => ⟨rfl, rfl⟩, fun hc => absurd hempty hc⟩
  · rw [if_neg hempty]
    have hall : ∀ p ∈ (processRows env (outputDir env.cwd output_filename) language font_path
        font_size img_width img_height bg_color_rgb font_color_rgb
        ⟨env.fs0, [], 0, []⟩ 0 rows).individual_video_paths,
        p ∈ (processRows env (outputDir env.cwd output_filename) language font_path
        font_size img_width img_height bg_color_rgb font_color_rgb
        ⟨env.fs0, [], 0, []⟩ 0 rows).fs := fun p hp => (hinv p hp).1
    rw [hpaths] at hempty
    rcases hc : env.concatErr with _ | e
    · rw [concatenate_videos_ok (by rw [hpaths]; exact hempty) hall hc]
      dsimp only
      refine ⟨hpaths, fun h => absurd h hempty, fun _ => ⟨by rw [hpaths], fun _ => rfl, ?_⟩⟩
      intro e2 he2
      exact absurd he2 (by simp)
    · rw [concatenate_videos_err (by rw [hpaths]; exact hempty) hall hc]
      dsimp only
      refine ⟨hpaths, fun h => absurd h hempty, fun _ => ⟨by rw [hpaths], ?_, ?_⟩⟩
      · intro h0
        exact absurd h0 (by simp)
      · intro e2 he2
        have he : e = e2 := by injection he2
        subst he
        rfl

/-- Closed instance of C2 at an environment with one successful and one
blank row: exactly one concatenator call over the clip of that row. -/
theorem c2_concat_gate_witness :
    (create_mcq_video envAllOk "data.csv" "out.mp4" "en" "font.ttf" 70 1920 1080
        (0, 127, 215) (255, 255, 255)).successPaths =
      clipsOf (outputDir "/cwd" "out.mp4")
        (pureTraces envAllOk (outputDir "/cwd" "out.mp4") "en" 0
          [["Q1", "A", "B"], [" "]]) :=
  (c2_concat_gate envAllOk "data.csv" "out.mp4" "en" "font.ttf" 70 1920 1080
    (0, 127, 215) (255, 255, 255) [["Q1", "A", "B"], [" "]]
    (by decide) (by decide) rfl rfl (by decide) (by decide)).1

/-- C6: row order is preserved end to end: the trace lists every row in
input order, the successful-clip list is the ordered filter of the rows
that produced clips, every concatenator call receives exactly that list,
and the Nth narrated text comes from the concatenated cells of row N. -/
theorem c6_order_preserved (env : Env)
    (csv_file_path output_filename language font_path : String)
    (font_size img_width img_height : Nat) (bg_color_rgb font_color_rgb : RGB)
    (rows : List (List String))
    (hcsv : csv_file_path ∈ env.fs0) (hfont : font_path ∈ env.fs0)
    (hmk : env.mkdirErr = none) (hread : env.readCsv = .ok rows) (hne : rows ≠ [])
    (hsep : ∀ m, m < rows.length →
      font_path ∉ rowFiles (outputDir env.cwd output_filename) (m + 1)) :
    (create_mcq_video env csv_file_path output_filename language font_path font_size
        img_width img_height bg_color_rgb font_color_rgb).trace =
      pureTraces env (outputDir env.cwd output_filename) language 0 rows ∧
    (create_mcq_video env csv_file_path output_filename language font_path font_size
        img_width img_height bg_color_rgb font_color_rgb).successPaths =
      clipsOf (outputDir env.cwd output_filename)
        (pureTraces env (outputDir env.cwd output_filename) language 0 rows) ∧
    (∀ call ∈ (create_mcq_video env csv_file_path output_filename language font_path
        font_size img_width img_height bg_color_rgb font_color_rgb).concatCalls,
      call.1 = (create_mcq_video env csv_file_path output_filename language font_path
        font_size img_width img_height bg_color_rgb font_color_rgb).successPaths) ∧
    (∀ (n : Nat) (hn : n < rows.length),
      ∃ t, (create_mcq_video env csv_file_path output_filename language font_path
          font_size img_width img_height bg_color_rgb font_color_rgb).trace[n]? =
        some t ∧ t.item_num = n + 1 ∧
        (t.text = none ∨
         t.text = some (pyStrip (slideTextRaw env DEFAULT_TEXT_WRAP_WIDTH
           (rows.get ⟨n, hn⟩))))) := by
  have hsep0 : ∀ m, m < rows.length →
      font_path ∉ rowFiles (outputDir env.cwd output_filename) (0 + m + 1) := by
    intro m hm
    have := hsep m hm
    simpa using this
  obtain ⟨htr, hpaths, hffs⟩ := processRows_spec env (outputDir env.cwd output_filename)
    language font_path font_size img_width img_height bg_color_rgb font_color_rgb
    ⟨env.fs0, [], 0, []⟩ 0 rows hfont hsep0
  have htr2 : (processRows env (outputDir env.cwd output_filename) language font_path
      font_size img_width img_height bg_color_rgb font_color_rgb
      ⟨env.fs0, [], 0, []⟩ 0 rows).trace =
      pureTraces env (outputDir env.cwd output_filename) language 0 rows := by
    simpa using htr
  have hpaths2 : (processRows env (outputDir env.cwd output_filename) language font_path
      font_size img_width img_height bg_color_rgb font_color_rgb
      ⟨env.fs0, [], 0, []⟩ 0 rows).individual_video_paths =
      clipsOf (outputDir env.cwd output_filename)
        (pureTraces env (outputDir env.cwd output_filename) language 0 rows) := by
    simpa using hpaths
  have htrace := run_trace_eq env csv_file_path output_filename language font_path
    font_size img_width img_height bg_color_rgb font_color_rgb rows hcsv hfont hmk hread hne
  have hsp := run_successPaths_eq env csv_file_path output_filename language font_path
    font_size img_width img_height bg_color_rgb font_color_rgb rows hcsv hfont hmk hread hne
  refine ⟨htrace.trans htr2, hsp.trans hpaths2, ?_, ?_⟩
  · rw [create_mcq_video_run env csv_file_path output_filename language font_path
      font_size img_width img_height bg_color_rgb font_color_rgb rows hcsv hfont hmk hread hne]
    split
    · intro call hcall
      simp at hcall
    · split
      · intro call hcall
        simp only [List.mem_singleton] at hcall
        rw [hcall]
      · intro call hcall
        simp only [List.mem_singleton] at hcall
        rw [hcall]
  · intro n hn
    refine ⟨rowTracePure env (outputDir env.cwd output_filename) language (0 + n)
      (rows.get ⟨n, hn⟩), ?_, ?_, ?_⟩
    · rw [htrace.trans htr2]
      exact pureTraces_getElem env (outputDir env.cwd output_filename) language 0 rows n hn
    · rw [rowTracePure_item_num]
      omega
    · exact rowTracePure_text env (outputDir env.cwd output_filename) language (0 + n)
        (rows.get ⟨n, hn⟩)

/-- Closed instance of C6: the trace of a two-row run lists both rows in
order. -/
theorem c6_order_preserved_witness :
    (create_mcq_video envAllOk "data.csv" "out.mp4" "en" "font.ttf" 70 1920 1080
        (0, 127, 215) (255, 255, 255)).trace =
      pureTraces envAllOk (outputDir "/cwd" "out.mp4") "en" 0 [["Q1", "A", "B"], [" "]] :=
  (c6_order_preserved envAllOk "data.csv" "out.mp4" "en" "font.ttf" 70 1920 1080
    (0, 127, 215) (255, 255, 255) [["Q1", "A", "B"], [" "]]
    (by decide) (by decide) rfl rfl (by decide) (by decide)).1

/-- C3: a row whose render, narrate or clip stage fails is caught: its
three partial artifact files are absent from the final filesystem, and
the loop still processes every row (the trace covers the whole table). -/
theorem c3_row_failure_isolated (env : Env)
    (csv_file_path output_filename language font_path : String)
    (font_size img_width img_height : Nat) (bg_color_rgb font_color_rgb : RGB)
    (rows : List (List String))
    (hcsv : csv_file_path ∈ env.fs0) (hfont : font_path ∈ env.fs0)
    (hmk : env.mkdirErr = none) (hread : env.readCsv = .ok rows) (hne : rows ≠ [])
    (hsep : ∀ m, m < rows.length →
      font_path ∉ rowFiles (outputDir env.cwd output_filename) (m + 1))
    (n : Nat) (hn : n < rows.length) (msg : String)
    (hfail : (rowTracePure env (outputDir env.cwd output_filename) language n
      (rows.get ⟨n, hn⟩)).outcome = .failed msg)
    (hfp : finalVideoPath env.cwd output_filename ∉
      rowFiles (outputDir env.cwd output_filename) (n + 1)) :
    (∀ q ∈ rowFiles (outputDir env.cwd output_filename) (n + 1),
      q ∉ (create_mcq_video env csv_file_path output_filename language font_path font_size
        img_width img_height bg_color_rgb font_color_rgb).fs) ∧
    (create_mcq_video env csv_file_path output_filename language font_path font_size
        img_width img_height bg_color_rgb font_color_rgb).trace =
      pureTraces env (outputDir env.cwd output_filename) language 0 rows ∧
    (create_mcq_video env csv_file_path output_filename language font_path font_size
        img_width img_height bg_color_rgb font_color_rgb).trace.length = rows.length := by
  have hsep0 : ∀ m, m < rows.length →
      font_path ∉ rowFiles (outputDir env.cwd output_filename) (0 + m + 1) := by
    intro m hm
    have := hsep m hm
    simpa using this
  obtain ⟨htr, -, -⟩ := processRows_spec env (outputDir env.cwd output_filename)
    language font_path font_size img_width img_height bg_color_rgb font_color_rgb
    ⟨env.fs0, [], 0, []⟩ 0 rows hfont hsep0
  have htr2 : (processRows env (outputDir env.cwd output_filename) language font_path
      font_size img_width img_height bg_color_rgb font_color_rgb
      ⟨env.fs0, [], 0, []⟩ 0 rows).trace =
      pureTraces env (outputDir env.cwd output_filename) language 0 rows := by
    simpa using htr
  have htrace := run_trace_eq env csv_file_path output_filename language font_path
    font_size img_width img_height bg_color_rgb font_color_rgb rows hcsv hfont hmk hread hne
  have hrowfs := (processRows_row_fs env (outputDir env.cwd output_filename) language
    font_path font_size img_width img_height bg_color_rgb font_color_rgb
    ⟨env.fs0, [], 0, []⟩ 0 rows hfont hsep0 n hn).1
  have habs : ∀ q ∈ rowFiles (outputDir env.cwd output_filename) (n + 1),
      q ∉ (processRows env (outputDir env.cwd output_filename) language font_path
        font_size img_width img_height bg_color_rgb font_color_rgb
        ⟨env.fs0, [], 0, []⟩ 0 rows).fs := by
    intro q hq
    exact hrowfs ⟨msg, by simpa using hfail⟩ q (by simpa using hq)
  have hlen : (create_mcq_video env csv_file_path output_filename language font_path
      font_size img_width img_height bg_color_rgb font_color_rgb).trace.length =
      rows.length := by
    rw [htrace.trans htr2]
    exact pureTraces_length env (outputDir env.cwd output_filename) language 0 rows
  refine ⟨?_, htrace.trans htr2, hlen⟩
  intro q hq
  rcases run_fs_cases env csv_file_path output_filename language font_path font_size
      img_width img_height bg_color_rgb font_color_rgb rows hcsv hfont hmk hread hne
    with hfs | hfs
  · rw [hfs]
    exact habs q hq
  · rw [hfs, FS.mem_add]
    rintro (hqe | hqf)
    · exact hfp (hqe ▸ hq)
    · exact habs q hq hqf

/-- Closed instance of C3: the first row fails at speech synthesis, and
its image file is absent at the end of the run. -/
theorem c3_row_failure_isolated_witness :
    FS.has (create_mcq_video envRowFail "data.csv" "out.mp4" "en" "font.ttf" 70 1920 1080
        (0, 127, 215) (255, 255, 255)).fs
      (image_file (outputDir "/cwd" "out.mp4") 1) = false :=
  FS.has_false_iff.mpr
    ((c3_row_failure_isolated envRowFail "data.csv" "out.mp4" "en" "font.ttf" 70 1920 1080
      (0, 127, 215) (255, 255, 255) [["Q1"], ["Q2"]]
      (by decide) (by decide) rfl rfl (by decide) (by decide) 0 (by decide)
      "Error creating audio /cwd/out_output/mcq_audio_1.mp3 with gTTS: netdown"
      (by decide) (by decide)).1
      (image_file (outputDir "/cwd" "out.mp4") 1) (by decide))

/-- C4 (counterexample): a row whose single cell is blank after
normalization still gets its image file written — the source saves the
bitmap before discovering there is nothing to narrate, so the claim that
no image file is created for such a row is false. -/
theorem c4_counterexample :
    (∀ c ∈ ([" "] : List String), normalizeWs c = "") ∧
    FS.has (create_mcq_video envAllOk "data.csv" "out.mp4" "en" "font.ttf" 70 1920 1080
        (0, 127, 215) (255, 255, 255)).fs
      (image_file (outputDir "/cwd" "out.mp4") 2) = true := by
  decide

/-- C4 (amended): a row whose cells are all empty after normalization is
skipped for narration: its trace entry is the skip, no audio and no clip
file are created for it (its background-only image file is created), and
every row of the table is still processed. -/
theorem c4_empty_row_skipped (env : Env)
    (csv_file_path output_filename language font_path : String)
    (font_size img_width img_height : Nat) (bg_color_rgb font_color_rgb : RGB)
    (rows : List (List String))
    (hcsv : csv_file_path ∈ env.fs0) (hfont : font_path ∈ env.fs0)
    (hmk : env.mkdirErr = none) (hread : env.readCsv = .ok rows) (hne : rows ≠ [])
    (hsep : ∀ m, m < rows.length →
      font_path ∉ rowFiles (outputDir env.cwd output_filename) (m + 1))
    (n : Nat) (hn : n < rows.length)
    (hall : ∀ c ∈ rows.get ⟨n, hn⟩, normalizeWs c = "")
    (hsave : env.imageSaveErr (image_file (outputDir env.cwd output_filename) (n + 1)) = none)
    (haud0 : audio_file (outputDir env.cwd output_filename) (n + 1) ∉ env.fs0)
    (hvid0 : video_file (outputDir env.cwd output_filename) (n + 1) ∉ env.fs0)
    (hfp : finalVideoPath env.cwd output_filename ∉
      rowFiles (outputDir env.cwd output_filename) (n + 1)) :
    rowTracePure env (outputDir env.cwd output_filename) language n (rows.get ⟨n, hn⟩) =
      ⟨n + 1, some "", .skippedEmpty⟩ ∧
    (create_mcq_video env csv_file_path output_filename language font_path font_size
        img_width img_height bg_color_rgb font_color_rgb).trace =
      pureTraces env (outputDir env.cwd output_filename) language 0 rows ∧
    image_file (outputDir env.cwd output_filename) (n + 1) ∈
      (create_mcq_video env csv_file_path output_filename language font_path font_size
        img_width img_height bg_color_rgb font_color_rgb).fs ∧
    audio_file (outputDir env.cwd output_filename) (n + 1) ∉
      (create_mcq_video env csv_file_path output_filename language font_path font_size
        img_width img_height bg_color_rgb font_color_rgb).fs ∧
    video_file (outputDir env.cwd output_filename) (n + 1) ∉
      (create_mcq_video env csv_file_path output_filename language font_path font_size
        img_width img_height bg_color_rgb font_color_rgb).fs := by
  have hsep0 : ∀ m, m < rows.length →
      font_path ∉ rowFiles (outputDir env.cwd output_filename) (0 + m + 1) := by
    intro m hm
    have := hsep m hm
    simpa using this
  obtain ⟨htr, -, -⟩ := processRows_spec env (outputDir env.cwd output_filename)
    language font_path font_size img_width img_height bg_color_rgb font_color_rgb
    ⟨env.fs0, [], 0, []⟩ 0 rows hfont hsep0
  have htr2 : (processRows env (outputDir env.cwd output_filename) language font_path
      font_size img_width img_height bg_color_rgb font_color_rgb
      ⟨env.fs0, [], 0, []⟩ 0 rows).trace =
      pureTraces env (outputDir env.cwd output_filename) language 0 rows := by
    simpa using htr
  have htrace := run_trace_eq env csv_file_path output_filename language font_path
    font_size img_width img_height bg_color_rgb font_color_rgb rows hcsv hfont hmk hread hne
  have htp : rowTracePure env (outputDir env.cwd output_filename) language n
      (rows.get ⟨n, hn⟩) = ⟨n + 1, some "", .skippedEmpty⟩ := by
    unfold rowTracePure
    rw [hsave]
    dsimp only
    rw [slideText_of_all_empty env DEFAULT_TEXT_WRAP_WIDTH (rows.get ⟨n, hn⟩) hall]
    simp
  have hskip : (rowTracePure env (outputDir env.cwd output_filename) language (0 + n)
      (rows.get ⟨n, hn⟩)).outcome = .skippedEmpty := by
    have h0 : (0 : Nat) + n = n := by omega
    rw [h0, htp]
  obtain ⟨himg, haudiff, hvidiff⟩ := (processRows_row_fs env
    (outputDir env.cwd output_filename) language font_path font_size img_width
    img_height bg_color_rgb font_color_rgb ⟨env.fs0, [], 0, []⟩ 0 rows hfont hsep0
    n hn).2.2 hskip
  have h0 : (0 : Nat) + n + 1 = n + 1 := by omega
  rw [h0] at himg haudiff hvidiff
  have haudF : audio_file (outputDir env.cwd output_filename) (n + 1) ∉
      (processRows env (outputDir env.cwd output_filename) language font_path
        font_size img_width img_height bg_color_rgb font_color_rgb
        ⟨env.fs0, [], 0, []⟩ 0 rows).fs := by
    intro hmem
    exact haud0 (haudiff.mp hmem)
  have hvidF : video_file (outputDir env.cwd output_filename) (n + 1) ∉
      (processRows env (outputDir env.cwd output_filename) language font_path
        font_size img_width img_height bg_color_rgb font_color_rgb
        ⟨env.fs0, [], 0, []⟩ 0 rows).fs := by
    intro hmem
    exact hvid0 (hvidiff.mp hmem)
  refine ⟨htp, htrace.trans htr2, ?_, ?_, ?_⟩ <;>
    rcases run_fs_cases env csv_file_path output_filename language font_path font_size
        img_width img_height bg_color_rgb font_color_rgb rows hcsv hfont hmk hread hne
      with hfs | hfs
  · rw [hfs]; exact himg
  · rw [hfs, FS.mem_add]; exact Or.inr himg
  · rw [hfs]; exact haudF
  · rw [hfs, FS.mem_add]
    rintro (hqe | hqf)
    · exact hfp (hqe ▸ audio_mem_rowFiles (outputDir env.cwd output_filename) (n + 1))
    · exact haudF hqf
  · rw [hfs]; exact hvidF
  · rw [hfs, FS.mem_add]
    rintro (hqe | hqf)
    · exact hfp (hqe ▸ video_mem_rowFiles (outputDir env.cwd output_filename) (n + 1))
    · exact hvidF hqf

/-- Closed instance of the amended C4 at the blank second row. -/
theorem c4_empty_row_skipped_witness :
    rowTracePure envAllOk (outputDir "/cwd" "out.mp4") "en" 1
      ([["Q1", "A", "B"], [" "]].get ⟨1, by decide⟩) = ⟨2, some "", .skippedEmpty⟩ :=
  (c4_empty_row_skipped envAllOk "data.csv" "out.mp4" "en" "font.ttf" 70 1920 1080
    (0, 127, 215) (255, 255, 255) [["Q1", "A", "B"], [" "]]
    (by decide) (by decide) rfl rfl (by decide) (by decide) 1 (by decide)
    (by decide) rfl (by decide) (by decide) (by decide)).1

/-- C10: when final concatenation fails after at least one row succeeded,
the tool returns the wrapped concatenation error and the three
intermediate files of every successful row are still on disk: per-row
deletion only ever ran inside the handler of a failing row. -/
theorem c10_concat_failure_preserves (env : Env)
    (csv_file_path output_filename language font_path : String)
    (font_size img_width img_height : Nat) (bg_color_rgb font_color_rgb : RGB)
    (rows : List (List String)) (e : String)
    (hcsv : csv_file_path ∈ env.fs0) (hfont : font_path ∈ env.fs0)
    (hmk : env.mkdirErr = none) (hread : env.readCsv = .ok rows) (hne : rows ≠ [])
    (hsep : ∀ m, m < rows.length →
      font_path ∉ rowFiles (outputDir env.cwd output_filename) (m + 1))
    (hconcat : env.concatErr = some e)
    (hsome : clipsOf (outputDir env.cwd output_filename)
      (pureTraces env (outputDir env.cwd output_filename) language 0 rows) ≠ []) :
    (create_mcq_video env csv_file_path output_filename language font_path font_size
        img_width img_height bg_color_rgb font_color_rgb).ret =
      msgConcatFailed ("Error concatenating videos to " ++
        finalVideoPath env.cwd output_filename ++ ": " ++ e) ∧
    (∀ (n : Nat) (hn : n < rows.length) (dq : ℚ),
      (rowTracePure env (outputDir env.cwd output_filename) language n
        (rows.get ⟨n, hn⟩)).outcome = .ok dq →
      ∀ q ∈ rowFiles (outputDir env.cwd output_filename) (n + 1),
        q ∈ (create_mcq_video env csv_file_path output_filename language font_path
          font_size img_width img_height bg_color_rgb font_color_rgb).fs) := by
  have hsep0 : ∀ m, m < rows.length →
      font_path ∉ rowFiles (outputDir env.cwd output_filename) (0 + m + 1) := by
    intro m hm
    have := hsep m hm
    simpa using this
  obtain ⟨-, hpaths, -⟩ := processRows_spec env (outputDir env.cwd output_filename)
    language font_path font_size img_width img_height bg_color_rgb font_color_rgb
    ⟨env.fs0, [], 0, []⟩ 0 rows hfont hsep0
  have hpaths2 : (processRows env (outputDir env.cwd output_filename) language font_path
      font_size img_width img_height bg_color_rgb font_color_rgb
      ⟨env.fs0, [], 0, []⟩ 0 rows).individual_video_paths =
      clipsOf (outputDir env.cwd output_filename)
        (pureTraces env (outputDir env.cwd output_filename) language 0 rows) := by
    simpa using hpaths
  have hinv := processRows_inv env (outputDir env.cwd output_filename) language font_path
    font_size img_width img_height bg_color_rgb font_color_rgb
    ⟨env.fs0, [], 0, []⟩ 0 rows (by intro p hp; simp at hp)
  have hne2 : (processRows env (outputDir env.cwd output_filename) language font_path
      font_size img_width img_height bg_color_rgb font_color_rgb
      ⟨env.fs0, [], 0, []⟩ 0 rows).individual_video_paths ≠ [] := by
    rw [hpaths2]
    exact hsome
  have hall : ∀ p ∈ (processRows env (outputDir env.cwd output_filename) language font_path
      font_size img_width img_height bg_color_rgb font_color_rgb
      ⟨env.fs0, [], 0, []⟩ 0 rows).individual_video_paths,
      p ∈ (processRows env (outputDir env.cwd output_filename) language font_path
      font_size img_width img_height bg_color_rgb font_color_rgb
      ⟨env.fs0, [], 0, []⟩ 0 rows).fs := fun p hp => (hinv p hp).1
  rw [create_mcq_video_run env csv_file_path output_filename language font_path
    font_size img_width img_height bg_color_rgb font_color_rgb rows hcsv hfont hmk hread hne]
  rw [if_neg hne2]
  rw [concatenate_videos_err hne2 hall hconcat]
  dsimp only
  refine ⟨rfl, ?_⟩
  intro n hn dq hok q hq
  exact (processRows_row_fs env (outputDir env.cwd output_filename) language font_path
    font_size img_width img_height bg_color_rgb font_color_rgb
    ⟨env.fs0, [], 0, []⟩ 0 rows hfont hsep0 n hn).2.1
    ⟨dq, by simpa using hok⟩ q (by simpa using hq)

/-- Closed instance of C10: concatenation fails, the artifacts of the
single successful row survive. -/
theorem c10_concat_failure_preserves_witness :
    (create_mcq_video envConcatFail "data.csv" "out.mp4" "en" "font.ttf" 70 1920 1080
        (0, 127, 215) (255, 255, 255)).ret =
      msgConcatFailed ("Error concatenating videos to " ++
        finalVideoPath "/cwd" "out.mp4" ++ ": " ++ "muxboom") :=
  (c10_concat_failure_preserves envConcatFail "data.csv" "out.mp4" "en" "font.ttf"
    70 1920 1080 (0, 127, 215) (255, 255, 255) [["Q1"]] "muxboom"
    (by decide) (by decide) rfl rfl (by decide) (by decide) rfl (by decide)).1

end McpVideoGen
